import Mathlib

/-!
Verification development for `pldm/models/encoders/resnet.py`.

The file shallowly embeds the module:

* Constructor code (`BasicBlock.__init__`, `Bottleneck.__init__`,
  `ResNet.__init__`, `ResNet._make_layer`, and the exposed constructor
  functions `resnet18`, `resnet34`, ...) becomes `Except`-valued Lean
  functions producing configuration records; Python exceptions become the
  `PyErr` type.  Library-level validation that these constructors invoke
  (`nn.Conv2d` group checks, `nn.GroupNorm` divisibility checks) is
  embedded from the external library's documented behaviour.
* `forward` methods become functions over an abstract tensor type `T`
  whose primitive operations (convolution, normalization, pooling,
  nonlinearity, addition) are supplied by a `TPrims T` record, matching
  the module's delegation of all tensor arithmetic to the external
  library.  Three instantiations are used: a shape interpretation
  (tensors are dimension lists, primitives are the library's documented
  shape rules), an integer interpretation (for concrete evaluation), and
  a free term interpretation (terms record exactly which operations
  `forward` performs).
* Aliasing behaviour of the in-place operations (`nn.ReLU(inplace=True)`,
  `out += identity`) is captured by a store-passing semantics: tensors
  live at addresses of a `Store`, non-in-place primitives allocate fresh
  cells, in-place primitives overwrite their operand's cell.
-/

/-- Python exceptions raised by the embedded code, one constructor per
distinct raise site / library check. -/
inductive PyErr where
  /-- Models `ValueError("BasicBlock only supports groups=1 and base_width=64")`,
  resnet.py lines 52-53 (and identical guard at lines 92-93). -/
  | valueErrorBasicBlock : PyErr
  /-- Models `NotImplementedError("Dilation > 1 not supported in BasicBlock")`,
  resnet.py lines 54-55 / 94-95. -/
  | notImplementedDilation : PyErr
  /-- Models `ValueError("replace_stride_with_dilation should be None or a
  3-element tuple, got ...")`, resnet.py lines 228-232; carries the
  offending value. -/
  | valueErrorRSWD (got : List Bool) : PyErr
  /-- Models `ValueError("num_channels must be divisible by num_groups")` raised
  by `nn.GroupNorm.__init__` (external library check). -/
  | valueErrorGroupNorm : PyErr
  /-- Models `ZeroDivisionError` from `num_channels % num_groups` in
  `nn.GroupNorm.__init__` when `num_groups == 0` (external library). -/
  | zeroDivisionError : PyErr
  /-- Models `ValueError` raised by `nn.Conv2d.__init__` when `groups` is not a
  positive integer or does not divide the channel counts (external
  library check). -/
  | valueErrorConvGroups : PyErr
  /-- Models `TypeError` from calling `ResNet(...)` without the required
  positional arguments `filters` and `strides`. -/
  | typeErrorMissingArgs : PyErr
  /-- Models `TypeError` from `super(BasicBlock, self).__init__()` at resnet.py
  line 49: `self` is a `BasicBlockID`, which is not an instance of
  `BasicBlock`. -/
  | typeErrorSuper : PyErr
  /-- Models `IndexError` from indexing a too-short Python list. -/
  | indexError : PyErr
  /-- Models `AttributeError` for reading a never-assigned attribute of the
  given name. -/
  | attributeError (name : String) : PyErr
deriving DecidableEq, Repr

/-- Which Python `ValueError`s the `PyErr` constructors stand for. -/
def PyErr.isValueError : PyErr → Bool
  | .valueErrorBasicBlock => true
  | .valueErrorRSWD _ => true
  | .valueErrorGroupNorm => true
  | .valueErrorConvGroups => true
  | _ => false

/-- Whether an error is the specific `replace_stride_with_dilation`
`ValueError` of resnet.py lines 228-232. -/
def PyErr.isRSWD : PyErr → Bool
  | .valueErrorRSWD _ => true
  | _ => false

/-- The three block classes of resnet.py. -/
inductive BlockKind where
  | basic : BlockKind
  | basicID : BlockKind
  | bottleneck : BlockKind
deriving DecidableEq, Repr

/-- Models `expansion` class attribute: 1 for `BasicBlock`/`BasicBlockID`
(lines 34, 74), 4 for `Bottleneck` (line 125). -/
def BlockKind.expansion : BlockKind → ℕ
  | .basic => 1
  | .basicID => 1
  | .bottleneck => 4

/-- Static configuration of one `nn.Conv2d` module: in/out channels,
square kernel size, stride, padding, dilation, groups.  `bias=False`
throughout resnet.py, so no bias flag is recorded. -/
structure ConvSpec where
  cin : ℕ
  cout : ℕ
  k : ℕ
  stride : ℕ
  pad : ℕ
  dil : ℕ
  groups : ℕ
deriving DecidableEq, Repr

/-- The normalization classes that can be passed as `norm_layer`. -/
inductive NormKind where
  | groupNorm : NormKind
  | batchNorm2d : NormKind
deriving DecidableEq, Repr

/-- A constructed normalization module.  For `groupNorm`, `a` is
`num_groups` and `b` is `num_channels`; for `batchNorm2d` the call
`norm_layer(a, b)` makes `a` the `num_features` and `b` the `eps`
argument. -/
structure NormSpec where
  kind : NormKind
  a : ℕ
  b : ℕ
deriving DecidableEq, Repr

/-- Models `nn.Conv2d(...)` construction with the external library's argument
validation: `groups` must be positive and divide both channel counts. -/
def convNew (cin cout k stride pad dil groups : ℕ) : Except PyErr ConvSpec :=
  if groups = 0 then .error .valueErrorConvGroups
  else if cin % groups ≠ 0 ∨ cout % groups ≠ 0 then .error .valueErrorConvGroups
  else .ok ⟨cin, cout, k, stride, pad, dil, groups⟩

/-- Models `conv3x3(in_planes, out_planes, stride, groups, dilation)` of
resnet.py lines 14-25: kernel 3, `padding=dilation`, `bias=False`. -/
def conv3x3 (inPlanes outPlanes stride groups dilation : ℕ) : Except PyErr ConvSpec :=
  convNew inPlanes outPlanes 3 stride dilation dilation groups

/-- Models `conv1x1(in_planes, out_planes, stride)` of resnet.py lines 28-30. -/
def conv1x1 (inPlanes outPlanes stride : ℕ) : Except PyErr ConvSpec :=
  convNew inPlanes outPlanes 1 stride 0 1 1

/-- Models `norm_layer(a, b)` construction.  `nn.GroupNorm.__init__` evaluates
`num_channels % num_groups` (ZeroDivisionError when `num_groups == 0`)
and raises `ValueError` when it is nonzero; `nn.BatchNorm2d(a, b)` binds
`a` to `num_features`, `b` to `eps`, and raises nothing. -/
def normNew (kind : NormKind) (a b : ℕ) : Except PyErr NormSpec :=
  match kind with
  | .batchNorm2d => .ok ⟨.batchNorm2d, a, b⟩
  | .groupNorm =>
      if a = 0 then .error .zeroDivisionError
      else if b % a ≠ 0 then .error .valueErrorGroupNorm
      else .ok ⟨.groupNorm, a, b⟩

/-- Downsample branch built in `_make_layer` (resnet.py lines 336-341):
`nn.Sequential(conv1x1(inplanes, planes*expansion, stride), norm)`. -/
structure DownSpec where
  conv : ConvSpec
  norm : NormSpec
deriving DecidableEq, Repr

/-- The final activation attribute of a `Bottleneck`.  `aUnset` records
that none of the three `if` branches at resnet.py lines 157-162 matched,
so `self.last_activation` was never assigned. -/
inductive ActAttr where
  | aRelu : ActAttr
  | aIdentity : ActAttr
  | aSigmoid : ActAttr
  | aUnset : ActAttr
deriving DecidableEq, Repr

/-- resnet.py lines 157-162: the chain of `if last_activation == ...`
tests of `Bottleneck.__init__`; no `else` branch exists. -/
def actOf (lastActStr : String) : ActAttr :=
  if lastActStr = "relu" then .aRelu
  else if lastActStr = "none" then .aIdentity
  else if lastActStr = "sigmoid" then .aSigmoid
  else .aUnset

/-- State of a constructed `BasicBlock` (resnet.py lines 73-103):
`conv1`, `bn1`, `conv2`, `bn2`, `downsample`, `stride`.  (`self.relu`
is the fixed `nn.ReLU(inplace=True)`.) -/
structure BasicSpec where
  conv1 : ConvSpec
  bn1 : NormSpec
  conv2 : ConvSpec
  bn2 : NormSpec
  downsample : Option DownSpec
  stride : ℕ
deriving DecidableEq, Repr

/-- State a `BasicBlockID` would carry per its `__init__` body
(resnet.py lines 37-59): only `relu`, `downsample` and `stride` are
assigned; no convolution or normalization layer is built. -/
structure BasicIDSpec where
  downsample : Option DownSpec
  stride : ℕ
deriving DecidableEq, Repr

/-- State of a constructed `Bottleneck` (resnet.py lines 124-162). -/
structure BottleneckSpec where
  conv1 : ConvSpec
  bn1 : NormSpec
  conv2 : ConvSpec
  bn2 : NormSpec
  conv3 : ConvSpec
  bn3 : NormSpec
  downsample : Option DownSpec
  stride : ℕ
  lastAct : ActAttr
deriving DecidableEq, Repr

/-- A constructed residual block: one of the three classes. -/
inductive BlockSpec where
  | basic (b : BasicSpec) : BlockSpec
  | basicID (b : BasicIDSpec) : BlockSpec
  | bottleneck (b : BottleneckSpec) : BlockSpec
deriving DecidableEq, Repr

/-- Models `BasicBlock.__init__` (resnet.py lines 77-103).  The `norm_layer is
None` default resolves to `nn.BatchNorm2d` (lines 90-91); the two guard
raises (lines 92-95) precede every layer construction. -/
def basicBlockInit (inplanes planes stride : ℕ) (downsample : Option DownSpec)
    (groups baseWidth dilation : ℕ) (normLayer : Option NormKind)
    (_lastActStr : String) : Except PyErr BasicSpec :=
  let normLayer := normLayer.getD .batchNorm2d
  if groups ≠ 1 ∨ baseWidth ≠ 64 then .error .valueErrorBasicBlock
  else if dilation > 1 then .error .notImplementedDilation
  else do
    let conv1 ← conv3x3 inplanes planes stride 1 1
    let bn1 ← normNew normLayer (min 32 (planes / 4)) planes
    let conv2 ← conv3x3 planes planes 1 1 1
    let bn2 ← normNew normLayer (min 32 (planes / 4)) planes
    .ok ⟨conv1, bn1, conv2, bn2, downsample, stride⟩

/-- Models `BasicBlockID.__init__` (resnet.py lines 37-59).  Its first
statement is `super(BasicBlock, self).__init__()` (line 49); since a
`BasicBlockID` instance is not an instance of `BasicBlock`, this raises
`TypeError` before anything else runs. -/
def basicBlockIDInit (_inplanes _planes _stride : ℕ)
    (_downsample : Option DownSpec) (_groups _baseWidth _dilation : ℕ)
    (_normLayer : Option NormKind) (_lastActStr : String) :
    Except PyErr BasicIDSpec :=
  .error .typeErrorSuper

/-- The layer-building part of `Bottleneck.__init__` (resnet.py lines
140-155), before the `last_activation` dispatch.  `width = int(planes *
(base_width / 64.0)) * groups` (line 143) is exact natural division
since `base_width / 64.0` is exactly representable and the product is
assumed within double precision. -/
def bottleneckInitCore (inplanes planes stride : ℕ)
    (downsample : Option DownSpec) (groups baseWidth dilation : ℕ)
    (normLayer : Option NormKind) : Except PyErr BottleneckSpec := do
  let normLayer := normLayer.getD .batchNorm2d
  let width := planes * baseWidth / 64 * groups
  let conv1 ← conv1x1 inplanes width 1
  let bn1 ← normNew normLayer (min 32 (width / 4)) width
  let conv2 ← conv3x3 width width stride groups dilation
  let bn2 ← normNew normLayer (min 32 (width / 4)) width
  let conv3 ← conv1x1 width (planes * 4) 1
  let bn3 ← normNew normLayer (min 32 (planes * 4 / 4)) (planes * 4)
  .ok ⟨conv1, bn1, conv2, bn2, conv3, bn3, downsample, stride, .aUnset⟩

/-- Models `Bottleneck.__init__` (resnet.py lines 128-162): builds the layers,
then sets `last_activation` from the string (lines 157-162); an
unrecognized string leaves the attribute unassigned (`aUnset`). -/
def bottleneckInit (inplanes planes stride : ℕ)
    (downsample : Option DownSpec) (groups baseWidth dilation : ℕ)
    (normLayer : Option NormKind) (lastActStr : String) :
    Except PyErr BottleneckSpec :=
  (bottleneckInitCore inplanes planes stride downsample groups baseWidth
      dilation normLayer).map
    (fun c => { c with lastAct := actOf lastActStr })

/-- Models `block(...)` construction dispatch used by `_make_layer`
(resnet.py lines 344-356, 358-369). -/
def blockInit (kind : BlockKind) (inplanes planes stride : ℕ)
    (downsample : Option DownSpec) (groups baseWidth dilation : ℕ)
    (normLayer : Option NormKind) (lastActStr : String) :
    Except PyErr BlockSpec :=
  match kind with
  | .basic =>
      (basicBlockInit inplanes planes stride downsample groups baseWidth
          dilation normLayer lastActStr).map .basic
  | .basicID =>
      (basicBlockIDInit inplanes planes stride downsample groups baseWidth
          dilation normLayer lastActStr).map .basicID
  | .bottleneck =>
      (bottleneckInit inplanes planes stride downsample groups baseWidth
          dilation normLayer lastActStr).map .bottleneck

/-- The `for i in range(1, blocks)` loop of `_make_layer` (resnet.py
lines 358-369), written with the count `m` of remaining iterations:
iteration with `m = 0` is the last one (`i == blocks - 1`), which
receives `last_activation`; all others receive `"relu"`.  The loop
blocks use the updated `self.inplanes`, the default `stride=1` and
`downsample=None`, and the current `self.dilation`. -/
def makeLayerRest (kind : BlockKind) (inplanes planes : ℕ)
    (groups baseWidth dilation : ℕ) (normLayer : Option NormKind)
    (lastActStr : String) : ℕ → Except PyErr (List BlockSpec)
  | 0 => .ok []
  | m + 1 => do
      let b ← blockInit kind inplanes planes 1 none groups baseWidth dilation
        normLayer (if m = 0 then lastActStr else "relu")
      let rest ← makeLayerRest kind inplanes planes groups baseWidth dilation
        normLayer lastActStr m
      .ok (b :: rest)

/-- The part of `ResNet._make_layer` from the downsample construction
on (resnet.py lines 330-371), given the already-adjusted `stride` and
`dilation` and the saved `previous_dilation`. -/
def makeLayerCore (normLayer : Option NormKind) (groups baseWidth : ℕ)
    (kind : BlockKind) (planes blocks stride : ℕ) (lastActStr : String)
    (inplanes dilation previousDilation : ℕ) :
    Except PyErr (List BlockSpec × ℕ × ℕ) := do
  let downsample ←
    if stride ≠ 1 ∨ inplanes ≠ planes * kind.expansion then do
      let c ← conv1x1 inplanes (planes * kind.expansion) stride
      let n ← normNew (normLayer.getD .groupNorm)
        (min (planes * kind.expansion / 4) 32) (planes * kind.expansion)
      .ok (some (⟨c, n⟩ : DownSpec))
    else .ok none
  let first ← blockInit kind inplanes planes stride downsample groups
    baseWidth previousDilation normLayer
    (if blocks = 1 then lastActStr else "relu")
  let inplanes := planes * kind.expansion
  let rest ← makeLayerRest kind inplanes planes groups baseWidth dilation
    normLayer lastActStr (blocks - 1)
  .ok (first :: rest, inplanes, dilation)

/-- Models `ResNet._make_layer` (resnet.py lines 320-371).  Takes and returns
the mutable constructor state `self.inplanes`, `self.dilation`: saves
`previous_dilation`, applies the dilation replacement (lines 332-334),
then builds the blocks.  Returns the block list of the
`nn.Sequential`. -/
def makeLayer (normLayer : Option NormKind) (groups baseWidth : ℕ)
    (kind : BlockKind) (planes blocks stride : ℕ) (dilate : Bool)
    (lastActStr : String) (inplanes dilation : ℕ) :
    Except PyErr (List BlockSpec × ℕ × ℕ) :=
  let previousDilation := dilation
  let dilation := if dilate then dilation * stride else dilation
  let stride := if dilate then 1 else stride
  makeLayerCore normLayer groups baseWidth kind planes blocks stride
    lastActStr inplanes dilation previousDilation

/-- The `final_pool` attribute after resnet.py lines 293-298: `unset`
records that `final_pool_type` matched no branch, so the attribute was
never assigned. -/
inductive FinalPoolAttr where
  | avg : FinalPoolAttr
  | oneByOne (conv : ConvSpec) : FinalPoolAttr
  | nonePool : FinalPoolAttr
  | unset : FinalPoolAttr
deriving DecidableEq, Repr

/-- The `final_ln` attribute (resnet.py line 300): a `LayerNorm` over
the last filter count, or `nn.Identity()`. -/
inductive FinalLnAttr where
  | layerNorm (dim : ℕ) : FinalLnAttr
  | identity : FinalLnAttr
deriving DecidableEq, Repr

/-- A constructed `ResNet`: exactly the attributes `ResNet.__init__`
assigns that `forward` can reach, plus `final_ln` (assigned at line 300,
never read by `forward`).  `padding`/`maxpool` record presence of the
optional `ConstantPad2d(1, 0)` / `MaxPool2d(3, 2, 1)` modules. -/
structure ResNetCfg where
  padding : Bool
  conv1 : ConvSpec
  bn1 : NormSpec
  maxpool : Bool
  layer1 : List BlockSpec
  layer2 : Option (List BlockSpec)
  layer3 : Option (List BlockSpec)
  layer4 : Option (List BlockSpec)
  finalPool : FinalPoolAttr
  spatialOutput : Bool
  finalLn : FinalLnAttr
deriving DecidableEq, Repr

/-- Keyword arguments of `ResNet.__init__` (resnet.py lines 188-209)
with their default values.  `filters` and `strides` have no Python
default; they are `Option`s so that a call that omits them can be
modelled (Python raises `TypeError` before the body runs). -/
structure ResNetArgs where
  block : BlockKind := .basic
  layers : List ℕ := []
  filters : Option (List ℕ) := none
  strides : Option (List ℕ) := none
  numChannels : ℕ := 3
  zeroInitResidual : Bool := false
  groups : ℕ := 1
  widen : ℕ := 1
  widthPerGroup : ℕ := 64
  replaceStrideWithDilation : Option (List Bool) := none
  normLayer : Option NormKind := none
  lastActStr : String := "relu"
  initalMaxpool : Bool := true
  finalPoolType : String := "avg_pool"
  finalOutFilters : ℕ := 32
  spatialOutput : Bool := false
  expandFactor : ℕ := 2
  initialPadding : Bool := true
  finalLn : Bool := false
deriving DecidableEq, Repr

/-- Python `list[i]` indexing: `IndexError` when out of range. -/
def nthE (l : List α) (i : ℕ) : Except PyErr α :=
  match l.get? i with
  | some v => .ok v
  | none => .error .indexError

/-- Python `list[-1]` indexing. -/
def lastE (l : List α) : Except PyErr α :=
  match l.getLast? with
  | some v => .ok v
  | none => .error .indexError

/-- The `replace_stride_with_dilation` handling of `ResNet.__init__`
(resnet.py lines 224-232): `None` becomes `[False, False, False]`; a
value of length other than 3 raises the `ValueError` that names it. -/
def rswdNormalize (rswd : Option (List Bool)) : Except PyErr (List Bool) :=
  match rswd with
  | none => .ok [false, false, false]
  | some l => if l.length ≠ 3 then .error (.valueErrorRSWD l) else .ok l

/-- The attributes `ResNet.__init__` has assigned once it reaches line
300 (everything `forward` uses except `final_ln`). -/
structure ResNetPreCfg where
  padding : Bool
  conv1 : ConvSpec
  bn1 : NormSpec
  maxpool : Bool
  layer1 : List BlockSpec
  layer2 : Option (List BlockSpec)
  layer3 : Option (List BlockSpec)
  layer4 : Option (List BlockSpec)
  finalPool : FinalPoolAttr
  spatialOutput : Bool
deriving DecidableEq, Repr

/-- Attach the `final_ln` attribute (resnet.py line 300). -/
def assembleCfg (p : ResNetPreCfg) (fln : FinalLnAttr) : ResNetCfg :=
  ⟨p.padding, p.conv1, p.bn1, p.maxpool, p.layer1, p.layer2, p.layer3,
    p.layer4, p.finalPool, p.spatialOutput, fln⟩

/-- resnet.py line 300: `nn.LayerNorm(filters[-1]) if final_ln else
nn.Identity()`; `filters[-1]` is only evaluated when `final_ln`. -/
def finalLnOf (filters : List ℕ) (fl : Bool) : Except PyErr FinalLnAttr :=
  if fl then do
    let d ← lastE filters
    .ok (FinalLnAttr.layerNorm d)
  else .ok FinalLnAttr.identity

/-- Body of `ResNet.__init__` (resnet.py lines 210-298) after the
`replace_stride_with_dilation` normalization, given the normalized
3-element list `rswd`.  Mirrors the source order: `conv1`/`bn1`/
`maxpool`, the four `_make_layer` calls threading `inplanes`/`dilation`
and `num_out_filters`, and the `final_pool` dispatch.  The
weight-initialization loops (lines 302-318) touch only weight values,
which the configuration does not carry. -/
def resnetInitRest (a : ResNetArgs) (filters strides : List ℕ)
    (rswd : List Bool) : Except PyErr ResNetPreCfg := do
  let normLayer := some (a.normLayer.getD .groupNorm)
  let padding := a.initialPadding
  let inplanes := a.widthPerGroup * a.widen
  let f0 ← nthE filters 0
  let conv1 ← convNew a.numChannels f0 7 2 2 1 1
  let bn1 ← normNew (a.normLayer.getD .groupNorm) (min 32 (f0 / 4)) f0
  let maxpool := a.initalMaxpool
  let l0 ← nthE a.layers 0
  let s0 ← nthE strides 0
  let r1 ← makeLayer normLayer a.groups
    a.widthPerGroup a.block f0 l0 s0 false "relu" inplanes 1
  let layer1 := r1.1
  let inplanes := r1.2.1
  let dilation := r1.2.2
  let numOutFilters := f0
  let r2 ←
    if a.layers.length ≥ 2 then do
      let f1 ← nthE filters 1
      let l1 ← nthE a.layers 1
      let s1 ← nthE strides 1
      let d0 ← nthE rswd 0
      let r ← makeLayer normLayer a.groups a.widthPerGroup a.block
        f1 l1 s1 d0 "relu" inplanes dilation
      .ok (some r.1, r.2.1, r.2.2, f1)
    else .ok (none, inplanes, dilation, numOutFilters)
  let layer2 := r2.1
  let inplanes := r2.2.1
  let dilation := r2.2.2.1
  let numOutFilters := r2.2.2.2
  let r3 ←
    if a.layers.length ≥ 3 then do
      let f2 ← nthE filters 2
      let l2 ← nthE a.layers 2
      let s2 ← nthE strides 2
      let d1 ← nthE rswd 1
      let r ← makeLayer normLayer a.groups a.widthPerGroup a.block
        f2 l2 s2 d1 "relu" inplanes dilation
      .ok (some r.1, r.2.1, r.2.2, f2)
    else .ok (none, inplanes, dilation, numOutFilters)
  let layer3 := r3.1
  let inplanes := r3.2.1
  let dilation := r3.2.2.1
  let numOutFilters := r3.2.2.2
  let r4 ←
    if a.layers.length = 4 then do
      let f3 ← nthE filters 3
      let l3 ← nthE a.layers 3
      let s3 ← nthE strides 3
      let d2 ← nthE rswd 2
      let r ← makeLayer normLayer a.groups a.widthPerGroup a.block
        f3 l3 s3 d2 a.lastActStr inplanes dilation
      .ok (some r.1, r.2.1, r.2.2, f3)
    else .ok (none, inplanes, dilation, numOutFilters)
  let layer4 := r4.1
  let numOutFilters := r4.2.2.2
  let finalPool ←
    if a.finalPoolType = "avg_pool" then .ok FinalPoolAttr.avg
    else if a.finalPoolType = "1x1_pool" then do
      let c ← convNew numOutFilters a.finalOutFilters 1 1 0 1 1
      .ok (FinalPoolAttr.oneByOne c)
    else if a.finalPoolType = "id" then .ok FinalPoolAttr.nonePool
    else .ok FinalPoolAttr.unset
  .ok ⟨padding, conv1, bn1, maxpool, layer1, layer2, layer3, layer4,
    finalPool, a.spatialOutput⟩

/-- Body of `ResNet.__init__` (resnet.py lines 210-318) given the
required `filters` and `strides`: normalize and check
`replace_stride_with_dilation` (lines 224-232; the statements before the
check cannot raise), run the rest, and attach `final_ln` (line 300). -/
def resnetInitFS (a : ResNetArgs) (filters strides : List ℕ) :
    Except PyErr ResNetCfg := do
  let rswd ← rswdNormalize a.replaceStrideWithDilation
  let p ← resnetInitRest a filters strides rswd
  let fln ← finalLnOf filters a.finalLn
  .ok (assembleCfg p fln)

/-- Calling `ResNet(...)`: Python argument binding raises `TypeError`
when the required positional parameters `filters`/`strides` are missing;
otherwise the `__init__` body runs. -/
def resnetNew (a : ResNetArgs) : Except PyErr ResNetCfg :=
  match a.filters, a.strides with
  | some f, some s => resnetInitFS a f s
  | _, _ => .error .typeErrorMissingArgs

/-- Models `resnet18(**kwargs)` (resnet.py lines 532-542). -/
def resnet18Fn (kw : ResNetArgs) : Except PyErr (ResNetCfg × Option ℕ) :=
  (resnetNew { kw with
        block := .basic
        layers := [2, 2, 2, 2]
        filters := some [64, 128, 256, 512]
        strides := some [1, 2, 2, 2] }).map (fun c => (c, some 512))

/-- Models `resnet18ID(**kwargs)` (resnet.py lines 545-546). -/
def resnet18IDFn (kw : ResNetArgs) : Except PyErr (ResNetCfg × Option ℕ) :=
  (resnetNew { kw with
        block := .basicID
        layers := [2, 2, 2, 2] }).map (fun c => (c, some 512))

/-- Models `resnet34(**kwargs)` (resnet.py lines 549-550). -/
def resnet34Fn (kw : ResNetArgs) : Except PyErr (ResNetCfg × Option ℕ) :=
  (resnetNew { kw with
        block := .basic
        layers := [3, 4, 6, 3] }).map (fun c => (c, some 512))

/-- Models `resnet50(**kwargs)` (resnet.py lines 553-554). -/
def resnet50Fn (kw : ResNetArgs) : Except PyErr (ResNetCfg × Option ℕ) :=
  (resnetNew { kw with
        block := .bottleneck
        layers := [3, 4, 6, 3] }).map (fun c => (c, some 2048))

/-- Models `resnet101(**kwargs)` (resnet.py lines 557-558). -/
def resnet101Fn (kw : ResNetArgs) : Except PyErr (ResNetCfg × Option ℕ) :=
  (resnetNew { kw with
        block := .bottleneck
        layers := [3, 4, 23, 3] }).map (fun c => (c, some 2048))

/-- Models `resnet50x2(**kwargs)` (resnet.py lines 561-562). -/
def resnet50x2Fn (kw : ResNetArgs) : Except PyErr (ResNetCfg × Option ℕ) :=
  (resnetNew { kw with
        block := .bottleneck
        layers := [3, 4, 6, 3]
        widen := 2 }).map (fun c => (c, some 4096))

/-- Models `resnet50x4(**kwargs)` (resnet.py lines 565-566). -/
def resnet50x4Fn (kw : ResNetArgs) : Except PyErr (ResNetCfg × Option ℕ) :=
  (resnetNew { kw with
        block := .bottleneck
        layers := [3, 4, 6, 3]
        widen := 4 }).map (fun c => (c, some 8192))

/-- Models `resnet50x5(**kwargs)` (resnet.py lines 569-570). -/
def resnet50x5Fn (kw : ResNetArgs) : Except PyErr (ResNetCfg × Option ℕ) :=
  (resnetNew { kw with
        block := .bottleneck
        layers := [3, 4, 6, 3]
        widen := 5 }).map (fun c => (c, some 10240))

/-- Models `resnet200x2(**kwargs)` (resnet.py lines 573-574). -/
def resnet200x2Fn (kw : ResNetArgs) : Except PyErr (ResNetCfg × Option ℕ) :=
  (resnetNew { kw with
        block := .bottleneck
        layers := [3, 24, 36, 3]
        widen := 2 }).map (fun c => (c, some 4096))

/-- Models `resnet18s_a(**kwargs)` (resnet.py lines 405-418). -/
def resnet18s_aFn (kw : ResNetArgs) : Except PyErr (ResNetCfg × Option ℕ) :=
  (resnetNew { kw with
        block := .basic
        layers := [2, 2]
        initalMaxpool := false
        spatialOutput := true
        initialPadding := false
        expandFactor := 1
        finalPoolType := "id" }).map (fun c => (c, none))

/-- Models `resnet18s_b(**kwargs)` (resnet.py lines 421-435). -/
def resnet18s_bFn (kw : ResNetArgs) : Except PyErr (ResNetCfg × Option ℕ) :=
  (resnetNew { kw with
        block := .basic
        layers := [2, 2]
        initalMaxpool := false
        spatialOutput := true
        initialPadding := false
        expandFactor := 1
        finalPoolType := "1x1_pool"
        finalOutFilters := 32 }).map
    (fun c => (c, none))

/-- Models `resnet18s_c(**kwargs)` (resnet.py lines 438-452). -/
def resnet18s_cFn (kw : ResNetArgs) : Except PyErr (ResNetCfg × Option ℕ) :=
  (resnetNew { kw with
        block := .basic
        layers := [2, 2]
        initalMaxpool := false
        spatialOutput := true
        initialPadding := false
        expandFactor := 1
        finalPoolType := "1x1_pool"
        finalOutFilters := 48 }).map
    (fun c => (c, none))

/-- Models `resnet18s_d(**kwargs)` (resnet.py lines 455-469). -/
def resnet18s_dFn (kw : ResNetArgs) : Except PyErr (ResNetCfg × Option ℕ) :=
  (resnetNew { kw with
        block := .basic
        layers := [2, 2]
        initalMaxpool := false
        spatialOutput := true
        initialPadding := false
        expandFactor := 2
        finalPoolType := "1x1_pool"
        finalOutFilters := 64 }).map
    (fun c => (c, none))

/-- Models `resnet18s_e(**kwargs)` (resnet.py lines 472-486). -/
def resnet18s_eFn (kw : ResNetArgs) : Except PyErr (ResNetCfg × Option ℕ) :=
  (resnetNew { kw with
        block := .basic
        layers := [2, 2]
        initalMaxpool := false
        spatialOutput := true
        initialPadding := false
        expandFactor := 2
        finalPoolType := "1x1_pool"
        finalOutFilters := 48 }).map
    (fun c => (c, none))

/-- Models `resnet18s_f(**kwargs)` (resnet.py lines 489-503). -/
def resnet18s_fFn (kw : ResNetArgs) : Except PyErr (ResNetCfg × Option ℕ) :=
  (resnetNew { kw with
        block := .basic
        layers := [2, 2]
        initalMaxpool := false
        spatialOutput := true
        initialPadding := false
        expandFactor := 2
        finalPoolType := "1x1_pool"
        finalOutFilters := 32 }).map
    (fun c => (c, none))

/-- Models `resnet18s_g(**kwargs)` (resnet.py lines 506-529): every argument is
given explicitly, `**kwargs` is ignored. -/
def resnet18s_gFn (_kw : ResNetArgs) : Except PyErr (ResNetCfg × Option ℕ) :=
  (resnetNew {
        block := .basic
        layers := [2, 2, 2, 2]
        filters := some [64, 128, 128, 128]
        strides := some [1, 2, 1, 1]
        numChannels := 6
        zeroInitResidual := true
        groups := 1
        widen := 1
        widthPerGroup := 64
        replaceStrideWithDilation := none
        normLayer := none
        lastActStr := "relu"
        initalMaxpool := false
        finalPoolType := "1x1_pool"
        finalOutFilters := 64
        spatialOutput := true
        expandFactor := 2
        initialPadding := true }).map (fun c => (c, none))

/-- Default keyword arguments: calling a constructor function with no
`**kwargs`. -/
def defaultKw : ResNetArgs := {}

/-- The tensor primitives of the external library that `forward` methods
call, over an abstract tensor type `T`.  A learned layer's weights are
part of the corresponding function; the embedding keys each convolution
and normalization by its static `ConvSpec`/`NormSpec`. -/
structure TPrims (T : Type) where
  /-- Models `nn.ConstantPad2d(1, 0.0)` (resnet.py line 218). -/
  pad : T → T
  /-- An `nn.Conv2d` module with the given static configuration. -/
  conv2d : ConvSpec → T → T
  /-- A normalization module with the given static configuration. -/
  norm : NormSpec → T → T
  /-- Models `nn.ReLU` (applied in place at every use site). -/
  relu : T → T
  /-- Models `nn.MaxPool2d(kernel_size=3, stride=2, padding=1)` (line 249). -/
  maxpool : T → T
  /-- Models `nn.AdaptiveAvgPool2d((1, 1))` (line 294). -/
  adaptiveAvg : T → T
  /-- In-place tensor addition `out += identity`. -/
  add : T → T → T
  /-- Models `nn.Sigmoid()` (line 162). -/
  sigmoid : T → T
  /-- Models `torch.flatten(x, 1)` (line 399). -/
  flatten1 : T → T

/-- The `identity` value of a block's forward: `downsample(x)` when a
downsample module is present, else `x` itself (resnet.py lines 106,
115-116 and analogues). -/
def identityOf (P : TPrims T) (downsample : Option DownSpec) (x : T) : T :=
  match downsample with
  | some d => P.norm d.norm (P.conv2d d.conv x)
  | none => x

/-- Models `BasicBlock.forward` (resnet.py lines 105-121): conv1, bn1, relu,
conv2, bn2, then `out += identity` and the final relu. -/
def basicBlockForward (P : TPrims T) (b : BasicSpec) (x : T) : T :=
  let out := P.conv2d b.conv1 x
  let out := P.norm b.bn1 out
  let out := P.relu out
  let out := P.conv2d b.conv2 out
  let out := P.norm b.bn2 out
  let identity := identityOf P b.downsample x
  let out := P.add out identity
  P.relu out

/-- The residual-branch transformation of `BasicBlock.forward`: the
value of `out` just before `out += identity` (resnet.py lines 108-113). -/
def basicBlockTransform (P : TPrims T) (b : BasicSpec) (x : T) : T :=
  P.norm b.bn2 (P.conv2d b.conv2 (P.relu (P.norm b.bn1 (P.conv2d b.conv1 x))))

/-- Models `BasicBlockID.forward` (resnet.py lines 61-70): `out = identity`
(downsampled input or the input itself), then `out = self.relu(out)`.
No transformation is applied and no addition is performed. -/
def basicBlockIDForward (P : TPrims T) (b : BasicIDSpec) (x : T) : T :=
  P.relu (identityOf P b.downsample x)

/-- The residual-branch transformation of `Bottleneck.forward`: the
value of `out` just before `out += identity` (resnet.py lines 167-176). -/
def bottleneckTransform (P : TPrims T) (b : BottleneckSpec) (x : T) : T :=
  P.norm b.bn3 (P.conv2d b.conv3
    (P.relu (P.norm b.bn2 (P.conv2d b.conv2
      (P.relu (P.norm b.bn1 (P.conv2d b.conv1 x)))))))

/-- Application of a `Bottleneck`'s `last_activation` attribute;
reading it when it was never assigned raises `AttributeError`
(`nn.Module.__getattr__`). -/
def applyLastAct (P : TPrims T) (act : ActAttr) (out : T) : Except PyErr T :=
  match act with
  | .aRelu => .ok (P.relu out)
  | .aIdentity => .ok out
  | .aSigmoid => .ok (P.sigmoid out)
  | .aUnset => .error (.attributeError "last_activation")

/-- Models `Bottleneck.forward` (resnet.py lines 164-184): the three
conv/norm stages, `out += identity`, then `self.last_activation(out)`. -/
def bottleneckForwardE (P : TPrims T) (b : BottleneckSpec) (x : T) :
    Except PyErr T :=
  let out := P.conv2d b.conv1 x
  let out := P.norm b.bn1 out
  let out := P.relu out
  let out := P.conv2d b.conv2 out
  let out := P.norm b.bn2 out
  let out := P.relu out
  let out := P.conv2d b.conv3 out
  let out := P.norm b.bn3 out
  let identity := identityOf P b.downsample x
  let out := P.add out identity
  applyLastAct P b.lastAct out

/-- Models `forward` of any block, as called from an `nn.Sequential` layer. -/
def blockForwardE (P : TPrims T) (b : BlockSpec) (x : T) : Except PyErr T :=
  match b with
  | .basic bs => .ok (basicBlockForward P bs x)
  | .basicID bs => .ok (basicBlockIDForward P bs x)
  | .bottleneck bs => bottleneckForwardE P bs x

/-- An `nn.Sequential` of blocks: apply each block in order. -/
def layerForwardE (P : TPrims T) : List BlockSpec → T → Except PyErr T
  | [], x => .ok x
  | b :: bs, x => do
      let y ← blockForwardE P b x
      layerForwardE P bs y

/-- Models `if self.layerN is not None: x = self.layerN(x)` (resnet.py lines
386-393): apply an optional layer. -/
def optLayerE (P : TPrims T) (ol : Option (List BlockSpec)) (x : T) :
    Except PyErr T :=
  match ol with
  | some l => layerForwardE P l x
  | none => .ok x

/-- Models `if self.final_pool is not None: x = self.final_pool(x)` (resnet.py
lines 395-396); reading the attribute when resnet.py lines 293-298
assigned none raises `AttributeError`. -/
def finalPoolE (P : TPrims T) (fp : FinalPoolAttr) (x : T) : Except PyErr T :=
  match fp with
  | .avg => .ok (P.adaptiveAvg x)
  | .oneByOne cs => .ok (P.conv2d cs x)
  | .nonePool => .ok x
  | .unset => .error (.attributeError "final_pool")

/-- Models `ResNet.forward` (resnet.py lines 373-396) up to and including the
final pool: padding, conv1, bn1, relu, maxpool, the four (optional)
layers, `final_pool`. -/
def resnetForwardPreE (P : TPrims T) (c : ResNetCfg) (x : T) :
    Except PyErr T := do
  let x := if c.padding then P.pad x else x
  let x := P.conv2d c.conv1 x
  let x := P.norm c.bn1 x
  let x := P.relu x
  let x := if c.maxpool then P.maxpool x else x
  let x ← layerForwardE P c.layer1 x
  let x ← optLayerE P c.layer2 x
  let x ← optLayerE P c.layer3 x
  let x ← optLayerE P c.layer4 x
  finalPoolE P c.finalPool x

/-- Models `ResNet.forward` (resnet.py lines 373-402).  After the final pool,
`x = torch.flatten(x, 1)` unless `spatial_output`; the result is wrapped
in `BackboneOutput(encodings=x)`, so the returned value is the
`encodings` tensor. -/
def resnetForwardE (P : TPrims T) (c : ResNetCfg) (x : T) : Except PyErr T := do
  let y ← resnetForwardPreE P c x
  .ok (if c.spatialOutput then y else P.flatten1 y)

/-- Free tensor terms: one constructor per `TPrims` operation.  A
`forward` run over this interpretation records syntactically exactly
which library operations it performs on its input. -/
inductive TTerm where
  | var : TTerm
  | padT : TTerm → TTerm
  | convT : ConvSpec → TTerm → TTerm
  | normT : NormSpec → TTerm → TTerm
  | reluT : TTerm → TTerm
  | maxpoolT : TTerm → TTerm
  | avgT : TTerm → TTerm
  | addT : TTerm → TTerm → TTerm
  | sigmoidT : TTerm → TTerm
  | flattenT : TTerm → TTerm
deriving DecidableEq, Repr

/-- The free interpretation of the tensor primitives. -/
def termPrims : TPrims TTerm :=
  ⟨.padT, .convT, .normT, .reluT, .maxpoolT, .avgT, .addT, .sigmoidT,
    .flattenT⟩

/-- A concrete integer interpretation of the tensor primitives, used to
evaluate the embedded networks on concrete inputs. -/
def intPrims : TPrims Int where
  pad := fun t => t + 1
  conv2d := fun cs t => 2 * t + (cs.cout : Int)
  norm := fun ns t => t + (ns.a : Int)
  relu := fun t => max 0 t
  maxpool := fun t => t - 1
  adaptiveAvg := fun t => t
  add := fun t u => t + u
  sigmoid := fun t => 1 - t
  flatten1 := fun t => t

/-- Tensor shapes: `none` is an invalid/failed shape, `some dims` a
tensor with the given dimension list. -/
def Shape : Type := Option (List ℕ)

/-- Output-dimension rule of the library's 2-d sliding-window
operations: `floor((h + 2*pad - (dil*(k-1)+1)) / stride) + 1`, defined
when the padded extent covers the effective kernel and the stride is
positive. -/
def convOutDim (k stride pad dil h : ℕ) : Option ℕ :=
  if 0 < stride ∧ dil * (k - 1) + 1 ≤ h + 2 * pad then
    some ((h + 2 * pad - (dil * (k - 1) + 1)) / stride + 1)
  else none

/-- Shape rule of `nn.Conv2d` on a 4-d input: channels must match
`cin`; spatial dims follow `convOutDim`. -/
def convShape (cs : ConvSpec) : Shape → Shape
  | some [b, c, h, w] =>
      if c = cs.cin then
        match convOutDim cs.k cs.stride cs.pad cs.dil h,
            convOutDim cs.k cs.stride cs.pad cs.dil w with
        | some h', some w' => some [b, cs.cout, h', w']
        | _, _ => none
      else none
  | _ => none

/-- Shape rule of the normalization modules: the input's channel count
must match the module's expectation (`num_channels` for `GroupNorm`,
which must also be divisible by `num_groups`; `num_features` for
`BatchNorm2d`); the shape passes through. -/
def normShape (ns : NormSpec) : Shape → Shape
  | some [b, c, h, w] =>
      match ns.kind with
      | .groupNorm =>
          if c = ns.b ∧ 0 < ns.a ∧ c % ns.a = 0 then some [b, c, h, w]
          else none
      | .batchNorm2d => if c = ns.a then some [b, c, h, w] else none
  | _ => none

/-- Shape rule of `nn.MaxPool2d(3, 2, 1)`. -/
def maxpoolShape : Shape → Shape
  | some [b, c, h, w] =>
      match convOutDim 3 2 1 1 h, convOutDim 3 2 1 1 w with
      | some h', some w' => some [b, c, h', w']
      | _, _ => none
  | _ => none

/-- Shape rule of `nn.AdaptiveAvgPool2d((1, 1))`: any 4-d input with
nonempty spatial dims pools to `1 × 1`. -/
def avgShape : Shape → Shape
  | some [b, c, h, w] => if 0 < h ∧ 0 < w then some [b, c, 1, 1] else none
  | _ => none

/-- Shape rule of `nn.ConstantPad2d(1, 0.0)`. -/
def padShape : Shape → Shape
  | some [b, c, h, w] => some [b, c, h + 2, w + 2]
  | _ => none

/-- Shape rule of in-place `out += identity`: the shapes must agree (the
in-place add cannot broadcast `out` up). -/
def addShape : Shape → Shape → Shape
  | some d1, some d2 => if d1 = d2 then some d1 else none
  | _, _ => none

/-- Shape rule of `torch.flatten(x, 1)`: all dimensions after the first
collapse into their product; requires at least 2 dimensions. -/
def flattenShape : Shape → Shape
  | some (b :: rest) => if rest.length ≥ 1 then some [b, rest.prod] else none
  | _ => none

/-- The shape interpretation of the tensor primitives. -/
def shapePrims : TPrims Shape where
  pad := padShape
  conv2d := convShape
  norm := normShape
  relu := fun s => s
  maxpool := maxpoolShape
  adaptiveAvg := avgShape
  add := addShape
  sigmoid := fun s => s
  flatten1 := flattenShape

/-- A store of tensors: `mem` gives the tensor at each address, `next`
is the next fresh address (every address `< next` is allocated). -/
structure Store (T : Type) where
  mem : ℕ → T
  next : ℕ

/-- Overwrite the tensor at address `a`. -/
def Store.write (s : Store T) (a : ℕ) (v : T) : Store T :=
  ⟨fun b => if b = a then v else s.mem b, s.next⟩

/-- Store-and-exception computations returning an `α` (for tensor
computations, the address of the result). -/
def StE (T : Type) (α : Type) : Type := Store T → Except PyErr α × Store T

/-- Return a value, leaving the store unchanged. -/
def StE.pure (a : α) : StE T α := fun s => (.ok a, s)

/-- Sequence two store computations; an exception short-circuits. -/
def StE.bind (m : StE T α) (f : α → StE T β) : StE T β := fun s =>
  match m s with
  | (.ok a, s') => f a s'
  | (.error e, s') => (.error e, s')

instance : Monad (StE T) where
  pure := StE.pure
  bind := StE.bind

/-- A primitive that is not in-place: read the operand, allocate a fresh
cell for `f`'s result. -/
def freshOp (f : T → T) (a : ℕ) : StE T ℕ := fun s =>
  (.ok s.next, ⟨fun b => if b = s.next then f (s.mem a) else s.mem b,
    s.next + 1⟩)

/-- An in-place primitive (`nn.ReLU(inplace=True)`): overwrite the
operand's cell with `f`'s result and return the same address. -/
def inplaceOp (f : T → T) (a : ℕ) : StE T ℕ := fun s =>
  (.ok a, s.write a (f (s.mem a)))

/-- In-place `out += identity` at addresses `a` (out) and `b`
(identity): overwrite `a`'s cell with the sum. -/
def addInplaceOp (P : TPrims T) (a b : ℕ) : StE T ℕ := fun s =>
  (.ok a, s.write a (P.add (s.mem a) (s.mem b)))

/-- Raise an exception, leaving the store unchanged. -/
def throwOp (e : PyErr) : StE T α := fun s => (.error e, s)

/-- Models `downsample(x)` in the store semantics: `conv1x1` then norm, both
allocating fresh results; without a downsample the identity is the input
address itself. -/
def identityOpS (P : TPrims T) (downsample : Option DownSpec) (x : ℕ) :
    StE T ℕ :=
  match downsample with
  | some d => do
      let a ← freshOp (P.conv2d d.conv) x
      freshOp (P.norm d.norm) a
  | none => pure x

/-- The residual branch of `BasicBlock.forward` in the store semantics
(resnet.py lines 108-113): `conv1`/`bn1`/`conv2`/`bn2` allocate, the
middle `relu` is in place. -/
def basicTransformS (P : TPrims T) (b : BasicSpec) (x : ℕ) : StE T ℕ := do
  let o ← freshOp (P.conv2d b.conv1) x
  let o ← freshOp (P.norm b.bn1) o
  let o ← inplaceOp P.relu o
  let o ← freshOp (P.conv2d b.conv2) o
  freshOp (P.norm b.bn2) o

/-- Models `BasicBlock.forward` in the store semantics (resnet.py lines
105-121): the residual branch, the (possibly downsampled) identity,
in-place `out += identity`, and the in-place final `relu`. -/
def basicBlockS (P : TPrims T) (b : BasicSpec) (x : ℕ) : StE T ℕ := do
  let o ← basicTransformS P b x
  let i ← identityOpS P b.downsample x
  let o2 ← addInplaceOp P o i
  inplaceOp P.relu o2

/-- Models `BasicBlockID.forward` in the store semantics (resnet.py lines
61-70): when no downsample is present, the in-place `relu` overwrites
the block's input cell. -/
def basicBlockIDS (P : TPrims T) (b : BasicIDSpec) (x : ℕ) : StE T ℕ := do
  let i ← identityOpS P b.downsample x
  inplaceOp P.relu i

/-- Models `last_activation` in the store semantics: `nn.ReLU(inplace=True)` is
in place, `nn.Identity()` returns its operand, `nn.Sigmoid()`
allocates; an unassigned attribute raises. -/
def lastActS (P : TPrims T) (act : ActAttr) (o : ℕ) : StE T ℕ :=
  match act with
  | .aRelu => inplaceOp P.relu o
  | .aIdentity => pure o
  | .aSigmoid => freshOp P.sigmoid o
  | .aUnset => throwOp (.attributeError "last_activation")

/-- The residual branch of `Bottleneck.forward` in the store semantics
(resnet.py lines 167-176): the three conv/norm stages allocate, the two
middle `relu`s are in place. -/
def bottleneckTransformS (P : TPrims T) (b : BottleneckSpec) (x : ℕ) :
    StE T ℕ := do
  let o ← freshOp (P.conv2d b.conv1) x
  let o ← freshOp (P.norm b.bn1) o
  let o ← inplaceOp P.relu o
  let o ← freshOp (P.conv2d b.conv2) o
  let o ← freshOp (P.norm b.bn2) o
  let o ← inplaceOp P.relu o
  let o ← freshOp (P.conv2d b.conv3) o
  freshOp (P.norm b.bn3) o

/-- Models `Bottleneck.forward` in the store semantics (resnet.py lines
164-184): the residual branch, the identity, in-place
`out += identity`, and the `last_activation` attribute. -/
def bottleneckS (P : TPrims T) (b : BottleneckSpec) (x : ℕ) : StE T ℕ := do
  let o ← bottleneckTransformS P b x
  let i ← identityOpS P b.downsample x
  let o2 ← addInplaceOp P o i
  lastActS P b.lastAct o2

/-- Block dispatch in the store semantics. -/
def blockS (P : TPrims T) (b : BlockSpec) (x : ℕ) : StE T ℕ :=
  match b with
  | .basic bs => basicBlockS P bs x
  | .basicID bs => basicBlockIDS P bs x
  | .bottleneck bs => bottleneckS P bs x

/-- An `nn.Sequential` of blocks in the store semantics. -/
def layerS (P : TPrims T) : List BlockSpec → ℕ → StE T ℕ
  | [], x => pure x
  | b :: bs, x => do
      let y ← blockS P b x
      layerS P bs y

/-- An optional layer in the store semantics. -/
def optLayerS (P : TPrims T) (ol : Option (List BlockSpec)) (x : ℕ) :
    StE T ℕ :=
  match ol with
  | some l => layerS P l x
  | none => pure x

/-- The final pool in the store semantics: the pools allocate, `None`
passes the address through, an unassigned attribute raises. -/
def finalPoolS (P : TPrims T) (fp : FinalPoolAttr) (x : ℕ) : StE T ℕ :=
  match fp with
  | .avg => freshOp P.adaptiveAvg x
  | .oneByOne cs => freshOp (P.conv2d cs) x
  | .nonePool => pure x
  | .unset => throwOp (.attributeError "final_pool")

/-- The optional initial padding (resnet.py lines 374-375) in the store
semantics: `ConstantPad2d` allocates; absent, the input address passes
through. -/
def padStepS (P : TPrims T) (b : Bool) (x : ℕ) : StE T ℕ :=
  if b then freshOp P.pad x else pure x

/-- The optional `maxpool` (resnet.py lines 381-382) in the store
semantics. -/
def maxpoolStepS (P : TPrims T) (b : Bool) (x : ℕ) : StE T ℕ :=
  if b then freshOp P.maxpool x else pure x

/-- Models `ResNet.forward` up to the final pool in the store semantics
(resnet.py lines 373-396): the initial `relu` is in place on `bn1`'s
fresh output; everything else allocates or delegates to the layers. -/
def resnetForwardPreS (P : TPrims T) (c : ResNetCfg) (x : ℕ) : StE T ℕ := do
  let x ← padStepS P c.padding x
  let x ← freshOp (P.conv2d c.conv1) x
  let x ← freshOp (P.norm c.bn1) x
  let x ← inplaceOp P.relu x
  let x ← maxpoolStepS P c.maxpool x
  let x ← layerS P c.layer1 x
  let x ← optLayerS P c.layer2 x
  let x ← optLayerS P c.layer3 x
  let x ← optLayerS P c.layer4 x
  finalPoolS P c.finalPool x

/-- Models `ResNet.forward` in the store semantics (resnet.py lines 373-402);
`torch.flatten(x, 1)` returns a view, so it performs no write (modelled
as a fresh cell holding the flattened tensor). -/
def resnetForwardS (P : TPrims T) (c : ResNetCfg) (x : ℕ) : StE T ℕ := do
  let y ← resnetForwardPreS P c x
  if c.spatialOutput then pure y else freshOp P.flatten1 y

/-- The tensor an `StE` run returns: the value stored at the returned
address in the final store (errors pass through). -/
def StE.result (m : StE T ℕ) (s : Store T) : Except PyErr T :=
  (m s).1.map fun a => (m s).2.mem a

/-- Models `GroupNorm(g, c)` specification. -/
def gnSpec (g c : ℕ) : NormSpec := ⟨.groupNorm, g, c⟩

/-- 3x3 convolution specification with padding 1, dilation 1, groups 1. -/
def c3Spec (cin cout stride : ℕ) : ConvSpec := ⟨cin, cout, 3, stride, 1, 1, 1⟩

/-- 1x1 convolution specification with padding 0, dilation 1, groups 1. -/
def c1Spec (cin cout stride : ℕ) : ConvSpec := ⟨cin, cout, 1, stride, 0, 1, 1⟩

/-- A stride-1 `BasicBlock` without downsample on `c` channels, with
`GroupNorm(g, c)` norms. -/
def basicKeep (c g : ℕ) : BasicSpec :=
  ⟨c3Spec c c 1, gnSpec g c, c3Spec c c 1, gnSpec g c, none, 1⟩

/-- A stride-2 `BasicBlock` from `cin` to `cout` channels with its
downsample branch, with `GroupNorm(g, cout)` norms. -/
def basicDown (cin cout g : ℕ) : BasicSpec :=
  ⟨c3Spec cin cout 2, gnSpec g cout, c3Spec cout cout 1, gnSpec g cout,
    some ⟨c1Spec cin cout 2, gnSpec g cout⟩, 2⟩

/-- The configuration `resnet18(num_channels=nc)` constructs (verified
against the embedded constructor by `resnet18_constructs`). -/
def resnet18Cfg (nc : ℕ) : ResNetCfg :=
  ⟨true, ⟨nc, 64, 7, 2, 2, 1, 1⟩, gnSpec 16 64, true,
    [.basic (basicKeep 64 16), .basic (basicKeep 64 16)],
    some [.basic (basicDown 64 128 32), .basic (basicKeep 128 32)],
    some [.basic (basicDown 128 256 32), .basic (basicKeep 256 32)],
    some [.basic (basicDown 256 512 32), .basic (basicKeep 512 32)],
    .avg, false, .identity⟩

/-- Whether an `Except` computation returned normally. -/
def isOkE (r : Except PyErr α) : Bool :=
  match r with
  | .ok _ => true
  | .error _ => false

/-- The companion value (second tuple component) a constructor function
returned, if it returned normally. -/
def companionOf (r : Except PyErr (ResNetCfg × Option ℕ)) : Option (Option ℕ) :=
  match r with
  | .ok (_, n) => some n
  | .error _ => none

/-- Models `ResNetArgs` with `expand_factor` and `final_ln` replaced. -/
def setEF (a : ResNetArgs) (e : ℕ) (fl : Bool) : ResNetArgs :=
  { a with expandFactor := e, finalLn := fl }

/-- A computation never fails with the `replace_stride_with_dilation`
`ValueError`. -/
def NoRSWD (r : Except PyErr α) : Prop :=
  ∀ l, r ≠ .error (.valueErrorRSWD l)

/-- Relation between a store-semantics result (address plus final
store) and a value-semantics result: same error, or the address is
allocated and holds the value. -/
def outRel (r : Except PyErr ℕ × Store T) (rv : Except PyErr T) : Prop :=
  match r, rv with
  | (.ok a, s'), .ok v => a < s'.next ∧ s'.mem a = v
  | (.error _, _), .ok _ => False
  | (.ok _, _), .error _ => False
  | (.error e, _), .error e' => e = e'

/-- A store-semantics tensor step refines the value function `fv`,
writing only to its input's cell or to cells it allocates: the
allocation frontier grows, every pre-existing cell other than the input
is preserved, a returned address is the input or a fresh cell, and the
result matches `fv` on the input's value. -/
def DStep (F : ℕ → StE T ℕ) (fv : T → Except PyErr T) : Prop :=
  ∀ a s, a < s.next →
    s.next ≤ (F a s).2.next ∧
    (∀ b, b < s.next → b ≠ a → (F a s).2.mem b = s.mem b) ∧
    (∀ a', (F a s).1 = .ok a' → a' = a ∨ s.next ≤ a') ∧
    outRel (F a s) (fv (s.mem a))

/-- As `DStep`, but no pre-existing cell at all is written (the input's
cell included). -/
def MStep (F : ℕ → StE T ℕ) (fv : T → Except PyErr T) : Prop :=
  ∀ a s, a < s.next →
    s.next ≤ (F a s).2.next ∧
    (∀ b, b < s.next → (F a s).2.mem b = s.mem b) ∧
    (∀ a', (F a s).1 = .ok a' → a' = a ∨ s.next ≤ a') ∧
    outRel (F a s) (fv (s.mem a))

/-- As `MStep`, and the returned address is always a fresh cell. -/
def SStep (F : ℕ → StE T ℕ) (fv : T → Except PyErr T) : Prop :=
  ∀ a s, a < s.next →
    s.next ≤ (F a s).2.next ∧
    (∀ b, b < s.next → (F a s).2.mem b = s.mem b) ∧
    (∀ a', (F a s).1 = .ok a' → s.next ≤ a') ∧
    outRel (F a s) (fv (s.mem a))

instance exceptDecEq {e a : Type} [DecidableEq e] [DecidableEq a] :
    DecidableEq (Except e a) := fun x y =>
  match x, y with
  | .ok u, .ok v =>
      if h : u = v then .isTrue (by rw [h])
      else .isFalse (by intro hh; injection hh; contradiction)
  | .error u, .error v =>
      if h : u = v then .isTrue (by rw [h])
      else .isFalse (by intro hh; injection hh; contradiction)
  | .ok _, .error _ => .isFalse (fun hh => Except.noConfusion hh)
  | .error _, .ok _ => .isFalse (fun hh => Except.noConfusion hh)

theorem bindOkE {α β : Type} (v : α) (f : α → Except PyErr β) :
    (Except.ok v >>= f) = f v := rfl

theorem bindErrE {α β : Type} (e : PyErr) (f : α → Except PyErr β) :
    ((Except.error e : Except PyErr α) >>= f) = .error e := rfl

theorem convNew_one (cin cout k s p d : ℕ) :
    convNew cin cout k s p d 1 = .ok ⟨cin, cout, k, s, p, d, 1⟩ := by
  simp [convNew, Nat.mod_one]

theorem resnet18_constructs (nc : ℕ) :
    resnet18Fn { defaultKw with numChannels := nc } =
      .ok (resnet18Cfg nc, some 512) := by
  simp only [resnet18Fn, resnetNew, resnetInitFS, resnetInitRest, convNew_one]
  rfl

theorem convShapeD1 (cin cout k s p g b h w h' w' : ℕ) (hk : 1 ≤ k) (hs : 0 < s)
    (hch : k ≤ h + 2 * p) (hcw : k ≤ w + 2 * p)
    (hh : (h + 2 * p - k) / s + 1 = h') (hw : (w + 2 * p - k) / s + 1 = w') :
    convShape ⟨cin, cout, k, s, p, 1, g⟩ (some [b, cin, h, w]) =
      some [b, cout, h', w'] := by
  have e1 : 1 * (k - 1) + 1 = k := by omega
  simp only [convShape, convOutDim, e1, if_true]
  rw [if_pos ⟨hs, hch⟩, if_pos ⟨hs, hcw⟩, hh, hw]

theorem normShapeGN (g c b h w : ℕ) (hg : 0 < g) (hd : c % g = 0) :
    normShape (gnSpec g c) (some [b, c, h, w]) = some [b, c, h, w] := by
  simp [normShape, gnSpec, hg, hd]

theorem maxpoolShapeE (b c h w h' w' : ℕ) (hh : 1 ≤ h) (hw : 1 ≤ w)
    (eh : (h - 1) / 2 + 1 = h') (ew : (w - 1) / 2 + 1 = w') :
    maxpoolShape (some [b, c, h, w]) = some [b, c, h', w'] := by
  simp only [maxpoolShape, convOutDim]
  rw [if_pos ⟨by omega, by omega⟩, if_pos ⟨by omega, by omega⟩]
  have e1 : h + 2 * 1 - (1 * (3 - 1) + 1) = h - 1 := by omega
  have e2 : w + 2 * 1 - (1 * (3 - 1) + 1) = w - 1 := by omega
  rw [e1, e2, eh, ew]

theorem basicKeepShape (c g b h w : ℕ) (hg : 0 < g) (hd : c % g = 0)
    (hh : 1 ≤ h) (hw : 1 ≤ w) :
    blockForwardE shapePrims (.basic (basicKeep c g)) (some [b, c, h, w]) =
      .ok (some [b, c, h, w]) := by
  simp only [blockForwardE, basicBlockForward, basicKeep, identityOf,
    shapePrims, c3Spec]
  rw [convShapeD1 c c 3 1 1 1 b h w h w (by omega) (by omega) (by omega)
    (by omega) (by omega) (by omega)]
  rw [normShapeGN g c b h w hg hd]
  rw [convShapeD1 c c 3 1 1 1 b h w h w (by omega) (by omega) (by omega)
    (by omega) (by omega) (by omega)]
  rw [normShapeGN g c b h w hg hd]
  simp [addShape]

theorem basicDownShape (cin cout g b h w : ℕ) (hg : 0 < g)
    (hd : cout % g = 0) (hh : 1 ≤ h) (hw : 1 ≤ w) :
    blockForwardE shapePrims (.basic (basicDown cin cout g)) (some [b, cin, h, w]) =
      .ok (some [b, cout, (h - 1) / 2 + 1, (w - 1) / 2 + 1]) := by
  simp only [blockForwardE, basicBlockForward, basicDown, identityOf,
    shapePrims, c3Spec, c1Spec]
  rw [convShapeD1 cin cout 3 2 1 1 b h w ((h - 1) / 2 + 1) ((w - 1) / 2 + 1)
    (by omega) (by omega) (by omega) (by omega) (by omega) (by omega)]
  rw [normShapeGN g cout b ((h - 1) / 2 + 1) ((w - 1) / 2 + 1) hg hd]
  rw [convShapeD1 cout cout 3 1 1 1 b ((h - 1) / 2 + 1) ((w - 1) / 2 + 1)
    ((h - 1) / 2 + 1) ((w - 1) / 2 + 1) (by omega) (by omega) (by omega)
    (by omega) (by omega) (by omega)]
  rw [normShapeGN g cout b ((h - 1) / 2 + 1) ((w - 1) / 2 + 1) hg hd]
  rw [convShapeD1 cin cout 1 2 0 1 b h w ((h - 1) / 2 + 1) ((w - 1) / 2 + 1)
    (by omega) (by omega) (by omega) (by omega) (by omega) (by omega)]
  rw [normShapeGN g cout b ((h - 1) / 2 + 1) ((w - 1) / 2 + 1) hg hd]
  simp [addShape]

theorem layerPairKeep (b h w : ℕ) (hh : 1 ≤ h) (hw : 1 ≤ w) :
    layerForwardE shapePrims
        [.basic (basicKeep 64 16), .basic (basicKeep 64 16)]
        (some [b, 64, h, w]) = .ok (some [b, 64, h, w]) := by
  simp only [layerForwardE]
  rw [basicKeepShape 64 16 b h w (by omega) (by omega) hh hw, bindOkE]
  rw [basicKeepShape 64 16 b h w (by omega) (by omega) hh hw, bindOkE]

theorem layerPairDown (cin cout b h w : ℕ) (hd : cout % 32 = 0)
    (hh : 1 ≤ h) (hw : 1 ≤ w) :
    layerForwardE shapePrims
        [.basic (basicDown cin cout 32), .basic (basicKeep cout 32)]
        (some [b, cin, h, w]) =
      .ok (some [b, cout, (h - 1) / 2 + 1, (w - 1) / 2 + 1]) := by
  simp only [layerForwardE]
  rw [basicDownShape cin cout 32 b h w (by omega) hd hh hw, bindOkE]
  rw [basicKeepShape cout 32 b ((h - 1) / 2 + 1) ((w - 1) / 2 + 1) (by omega)
    hd (by omega) (by omega), bindOkE]

theorem shapePrims_proj :
    shapePrims.pad = padShape ∧ shapePrims.conv2d = convShape ∧
    shapePrims.norm = normShape ∧ shapePrims.relu = (fun s => s) ∧
    shapePrims.maxpool = maxpoolShape ∧ shapePrims.adaptiveAvg = avgShape ∧
    shapePrims.add = addShape ∧ shapePrims.flatten1 = flattenShape :=
  ⟨rfl, rfl, rfl, rfl, rfl, rfl, rfl, rfl⟩

theorem c1shape (B nc H W : ℕ) (hH : 1 ≤ H) (hW : 1 ≤ W) :
    resnetForwardE shapePrims (resnet18Cfg nc) (some [B, nc, H, W]) =
      .ok (some [B, 512]) := by
  unfold resnetForwardE resnetForwardPreE resnet18Cfg
  simp only [shapePrims_proj.1, shapePrims_proj.2.1, shapePrims_proj.2.2.1,
    shapePrims_proj.2.2.2.1, shapePrims_proj.2.2.2.2.1,
    shapePrims_proj.2.2.2.2.2.1, shapePrims_proj.2.2.2.2.2.2.1,
    shapePrims_proj.2.2.2.2.2.2.2, padShape, if_true, optLayerE, finalPoolE]
  rw [convShapeD1 nc 64 7 2 2 1 B (H + 2) (W + 2) ((H - 1) / 2 + 1)
    ((W - 1) / 2 + 1) (by omega) (by omega) (by omega) (by omega) (by omega)
    (by omega)]
  rw [normShapeGN 16 64 B ((H - 1) / 2 + 1) ((W - 1) / 2 + 1) (by omega)
    (by omega)]
  rw [maxpoolShapeE B 64 ((H - 1) / 2 + 1) ((W - 1) / 2 + 1)
    (((H - 1) / 2 + 1 - 1) / 2 + 1) (((W - 1) / 2 + 1 - 1) / 2 + 1)
    (by omega) (by omega) (by omega) (by omega)]
  rw [layerPairKeep B _ _ (by omega) (by omega), bindOkE]
  rw [layerPairDown 64 128 B _ _ (by omega) (by omega) (by omega), bindOkE]
  rw [layerPairDown 128 256 B _ _ (by omega) (by omega) (by omega), bindOkE]
  rw [layerPairDown 256 512 B _ _ (by omega) (by omega) (by omega), bindOkE]
  simp [avgShape, flattenShape, bindOkE]

/-- C8: the spatial-output flag controls whether spatial structure is
preserved.  In the shape interpretation: for any configuration whose
forward pass reaches the flatten point with a 4-dimensional shape
`[b, ch, h, w]`, with `spatial_output = True` the returned encodings
keep that 4-dimensional shape, and with `spatial_output = False` they
are flattened over all non-batch dimensions to `[b, ch * h * w]`. -/
theorem claim_C8 (c : ResNetCfg) (x : Shape) (b ch h w : ℕ)
    (hpre : resnetForwardPreE shapePrims c x = .ok (some [b, ch, h, w])) :
    (c.spatialOutput = true →
      resnetForwardE shapePrims c x = .ok (some [b, ch, h, w]) ∧
      ([b, ch, h, w] : List ℕ).length = 4) ∧
    (c.spatialOutput = false →
      resnetForwardE shapePrims c x = .ok (some [b, ch * h * w])) := by
  unfold resnetForwardE
  rw [hpre, bindOkE]
  constructor
  · intro hs; rw [hs]; exact ⟨rfl, rfl⟩
  · intro hs; rw [hs]
    show Except.ok (flattenShape (some [b, ch, h, w])) = _
    simp [flattenShape, List.prod, mul_assoc]

/-- C2 (amended): with default hyperparameters, only `resnet18` and
`resnet18s_g` return normally with a pair whose second element carries
the companion value (512 for `resnet18`, `None` for `resnet18s_g`);
every other exposed constructor function raises `TypeError`, because it
calls `ResNet(...)` without the required positional arguments `filters`
and `strides`. -/
theorem claim_C2 :
    isOkE (resnet18Fn defaultKw) = true ∧
    companionOf (resnet18Fn defaultKw) = some (some 512) ∧
    isOkE (resnet18s_gFn defaultKw) = true ∧
    companionOf (resnet18s_gFn defaultKw) = some none ∧
    resnet18IDFn defaultKw = .error .typeErrorMissingArgs ∧
    resnet34Fn defaultKw = .error .typeErrorMissingArgs ∧
    resnet50Fn defaultKw = .error .typeErrorMissingArgs ∧
    resnet101Fn defaultKw = .error .typeErrorMissingArgs ∧
    resnet50x2Fn defaultKw = .error .typeErrorMissingArgs ∧
    resnet50x4Fn defaultKw = .error .typeErrorMissingArgs ∧
    resnet50x5Fn defaultKw = .error .typeErrorMissingArgs ∧
    resnet200x2Fn defaultKw = .error .typeErrorMissingArgs ∧
    resnet18s_aFn defaultKw = .error .typeErrorMissingArgs ∧
    resnet18s_bFn defaultKw = .error .typeErrorMissingArgs ∧
    resnet18s_cFn defaultKw = .error .typeErrorMissingArgs ∧
    resnet18s_dFn defaultKw = .error .typeErrorMissingArgs ∧
    resnet18s_eFn defaultKw = .error .typeErrorMissingArgs ∧
    resnet18s_fFn defaultKw = .error .typeErrorMissingArgs := by
  refine ⟨?_, ?_, ?_, ?_, ?_, ?_, ?_, ?_, ?_, ?_, ?_, ?_, ?_, ?_, ?_, ?_, ?_, ?_⟩ <;> decide

/-- C4 (amended): with the default `norm_layer` (`None`, resolved to
`nn.BatchNorm2d`), the `BasicBlock` constructor raises a `ValueError`
if and only if `groups ≠ 1` or `base_width ≠ 64`, raises
`NotImplementedError` if and only if `groups = 1`, `base_width = 64`
and `dilation > 1`, and returns normally when `groups = 1`,
`base_width = 64` and `dilation ≤ 1`.  (With `norm_layer = GroupNorm`
the constructor can additionally raise from the normalization layer's
divisibility check; see the counterexample.) -/
theorem claim_C4 (inplanes planes stride : ℕ) (ds : Option DownSpec)
    (groups bw dil : ℕ) (s : String) :
    ((∃ e, basicBlockInit inplanes planes stride ds groups bw dil none s =
        .error e ∧ e.isValueError = true) ↔ (groups ≠ 1 ∨ bw ≠ 64)) ∧
    (basicBlockInit inplanes planes stride ds groups bw dil none s =
        .error .notImplementedDilation ↔ (groups = 1 ∧ bw = 64 ∧ 1 < dil)) ∧
    (groups = 1 → bw = 64 → dil ≤ 1 →
      ∃ c, basicBlockInit inplanes planes stride ds groups bw dil none s =
        .ok c) := by
  by_cases hg : groups ≠ 1 ∨ bw ≠ 64
  · have hres : basicBlockInit inplanes planes stride ds groups bw dil none s =
        .error .valueErrorBasicBlock := by
      simp only [basicBlockInit]
      rw [if_pos hg]
    refine ⟨?_, ?_, ?_⟩
    · rw [hres]
      exact ⟨fun _ => hg, fun _ => ⟨.valueErrorBasicBlock, rfl, rfl⟩⟩
    · rw [hres]
      constructor
      · intro h; injection h with h2; exact absurd h2 (by decide)
      · intro ⟨h1, h2, _⟩
        exact absurd (Or.elim hg (fun c => c h1) (fun c => c h2)) not_false
    · intro h1 h2 _
      exact absurd (Or.elim hg (fun c => c h1) (fun c => c h2)) not_false
  · have hng := hg
    push_neg at hg
    obtain ⟨hg1, hg2⟩ := hg
    by_cases hd : 1 < dil
    · have hres : basicBlockInit inplanes planes stride ds groups bw dil none s =
          .error .notImplementedDilation := by
        simp only [basicBlockInit]
        rw [if_neg hng, if_pos hd]
      refine ⟨?_, ?_, ?_⟩
      · rw [hres]
        constructor
        · intro ⟨e, he, hv⟩
          injection he with he2
          rw [← he2] at hv
          exact absurd hv (by decide)
        · intro h; exact absurd h hng
      · rw [hres]
        exact ⟨fun _ => ⟨hg1, hg2, hd⟩, fun _ => rfl⟩
      · intro _ _ h3; omega
    · have hres : basicBlockInit inplanes planes stride ds groups bw dil none s =
          .ok ⟨⟨inplanes, planes, 3, stride, 1, 1, 1⟩,
            ⟨.batchNorm2d, min 32 (planes / 4), planes⟩,
            ⟨planes, planes, 3, 1, 1, 1, 1⟩,
            ⟨.batchNorm2d, min 32 (planes / 4), planes⟩, ds, stride⟩ := by
        simp only [basicBlockInit]
        rw [if_neg hng, if_neg hd]
        simp [conv3x3, convNew, normNew, Nat.mod_one, bindOkE]
      refine ⟨?_, ?_, ?_⟩
      · rw [hres]
        constructor
        · intro ⟨e, he, _⟩; exact absurd he (by simp)
        · intro h; exact absurd h hng
      · rw [hres]
        constructor
        · intro h; exact absurd h (by simp)
        · intro ⟨_, _, h3⟩; omega
      · intro _ _ _; exact ⟨_, hres⟩

theorem noRSWD_ok (v : α) : NoRSWD (.ok v : Except PyErr α) :=
  fun _ h => Except.noConfusion h

theorem noRSWD_err (e : PyErr) (he : e.isRSWD = false) :
    NoRSWD (.error e : Except PyErr α) := by
  intro l h
  injection h with h2
  rw [h2] at he
  exact absurd he (by simp [PyErr.isRSWD])

theorem mapErrE {α β : Type} (e : PyErr) (g : α → β) :
    (Except.error e : Except PyErr α).map g = .error e := rfl

theorem noRSWD_bind {α β : Type} {m : Except PyErr α} {f : α → Except PyErr β}
    (hm : NoRSWD m) (hf : ∀ a, NoRSWD (f a)) : NoRSWD (m >>= f) := by
  cases m with
  | ok v => exact hf v
  | error e =>
      intro l h
      injection h with h2
      exact hm l (by rw [h2])

theorem noRSWD_map {α β : Type} {m : Except PyErr α} (g : α → β)
    (hm : NoRSWD m) : NoRSWD (m.map g) := by
  cases m with
  | ok v => exact noRSWD_ok _
  | error e =>
      intro l h
      injection h with h2
      exact hm l (by rw [h2])

theorem noRSWD_nthE (l : List α) (i : ℕ) : NoRSWD (nthE l i) := by
  unfold nthE
  cases l.get? i with
  | some v => exact noRSWD_ok _
  | none => exact noRSWD_err .indexError rfl

theorem noRSWD_lastE (l : List α) : NoRSWD (lastE l) := by
  unfold lastE
  cases l.getLast? with
  | some v => exact noRSWD_ok _
  | none => exact noRSWD_err .indexError rfl

theorem noRSWD_convNew (a b c d e f g : ℕ) : NoRSWD (convNew a b c d e f g) := by
  unfold convNew
  split
  · exact noRSWD_err .valueErrorConvGroups rfl
  split
  · exact noRSWD_err .valueErrorConvGroups rfl
  · exact noRSWD_ok _

theorem noRSWD_normNew : ∀ (k : NormKind) (a b : ℕ), NoRSWD (normNew k a b)
  | .batchNorm2d, _, _ => noRSWD_ok _
  | .groupNorm, a, b => by
      show NoRSWD (if a = 0 then Except.error .zeroDivisionError
        else if b % a ≠ 0 then Except.error .valueErrorGroupNorm
        else Except.ok (⟨.groupNorm, a, b⟩ : NormSpec))
      split
      · exact noRSWD_err .zeroDivisionError rfl
      split
      · exact noRSWD_err .valueErrorGroupNorm rfl
      · exact noRSWD_ok _

theorem noRSWD_basicBlockInit (a b c : ℕ) (ds : Option DownSpec) (d e f : ℕ)
    (n : Option NormKind) (s : String) :
    NoRSWD (basicBlockInit a b c ds d e f n s) := by
  unfold basicBlockInit
  split
  · exact noRSWD_err .valueErrorBasicBlock rfl
  split
  · exact noRSWD_err .notImplementedDilation rfl
  · refine noRSWD_bind (by unfold conv3x3; exact noRSWD_convNew _ _ _ _ _ _ _) (fun _ => ?_)
    refine noRSWD_bind (noRSWD_normNew _ _ _) (fun _ => ?_)
    refine noRSWD_bind (by unfold conv3x3; exact noRSWD_convNew _ _ _ _ _ _ _) (fun _ => ?_)
    exact noRSWD_bind (noRSWD_normNew _ _ _) (fun _ => noRSWD_ok _)

theorem noRSWD_bottleneckInit (a b c : ℕ) (ds : Option DownSpec) (d e f : ℕ)
    (n : Option NormKind) (s : String) :
    NoRSWD (bottleneckInit a b c ds d e f n s) := by
  refine noRSWD_map _ ?_
  unfold bottleneckInitCore
  refine noRSWD_bind (by unfold conv1x1; exact noRSWD_convNew _ _ _ _ _ _ _) (fun _ => ?_)
  refine noRSWD_bind (noRSWD_normNew _ _ _) (fun _ => ?_)
  refine noRSWD_bind (by unfold conv3x3; exact noRSWD_convNew _ _ _ _ _ _ _) (fun _ => ?_)
  refine noRSWD_bind (noRSWD_normNew _ _ _) (fun _ => ?_)
  refine noRSWD_bind (by unfold conv1x1; exact noRSWD_convNew _ _ _ _ _ _ _) (fun _ => ?_)
  exact noRSWD_bind (noRSWD_normNew _ _ _) (fun _ => noRSWD_ok _)

theorem noRSWD_blockInit (k : BlockKind) (a b c : ℕ) (ds : Option DownSpec)
    (d e f : ℕ) (n : Option NormKind) (s : String) :
    NoRSWD (blockInit k a b c ds d e f n s) := by
  unfold blockInit
  cases k with
  | basic => exact noRSWD_map _ (noRSWD_basicBlockInit _ _ _ _ _ _ _ _ _)
  | basicID => exact noRSWD_map _ (noRSWD_err .typeErrorSuper rfl)
  | bottleneck => exact noRSWD_map _ (noRSWD_bottleneckInit _ _ _ _ _ _ _ _ _)

theorem noRSWD_makeLayerRest (k : BlockKind) (a b c d e : ℕ)
    (n : Option NormKind) (s : String) (m : ℕ) :
    NoRSWD (makeLayerRest k a b c d e n s m) := by
  induction m with
  | zero => exact noRSWD_ok _
  | succ m ih =>
      unfold makeLayerRest
      refine noRSWD_bind (noRSWD_blockInit _ _ _ _ _ _ _ _ _ _) (fun _ => ?_)
      exact noRSWD_bind ih (fun _ => noRSWD_ok _)

theorem noRSWD_makeLayerCore (n : Option NormKind) (g bw : ℕ)
    (k : BlockKind) (p bl st : ℕ) (s : String) (ip di pd : ℕ) :
    NoRSWD (makeLayerCore n g bw k p bl st s ip di pd) := by
  unfold makeLayerCore
  repeat'
    first
    | exact noRSWD_ok _
    | exact noRSWD_nthE _ _
    | exact noRSWD_convNew _ _ _ _ _ _ _
    | exact noRSWD_normNew _ _ _
    | exact (by unfold conv1x1; exact noRSWD_convNew _ _ _ _ _ _ _)
    | exact noRSWD_blockInit _ _ _ _ _ _ _ _ _ _
    | exact noRSWD_makeLayerRest _ _ _ _ _ _ _ _ _
    | refine noRSWD_bind ?_ (fun _ => ?_)
    | split

theorem noRSWD_makeLayer (n : Option NormKind) (g bw : ℕ) (k : BlockKind)
    (p bl st : ℕ) (d : Bool) (s : String) (ip di : ℕ) :
    NoRSWD (makeLayer n g bw k p bl st d s ip di) := by
  unfold makeLayer
  exact noRSWD_makeLayerCore _ _ _ _ _ _ _ _ _ _ _

set_option maxHeartbeats 1600000 in
theorem noRSWD_resnetInitRest (a : ResNetArgs) (f st : List ℕ)
    (rswd : List Bool) : NoRSWD (resnetInitRest a f st rswd) := by
  unfold resnetInitRest
  repeat'
    first
    | exact noRSWD_ok _
    | exact noRSWD_nthE _ _
    | exact noRSWD_convNew _ _ _ _ _ _ _
    | exact noRSWD_normNew _ _ _
    | exact noRSWD_makeLayer _ _ _ _ _ _ _ _ _ _ _
    | refine noRSWD_bind ?_ (fun _ => ?_)
    | split

theorem noRSWD_finalLnOf (f : List ℕ) (fl : Bool) : NoRSWD (finalLnOf f fl) := by
  unfold finalLnOf
  split
  · exact noRSWD_bind (noRSWD_lastE _) (fun _ => noRSWD_ok _)
  · exact noRSWD_ok _

/-- C5: the `ResNet` constructor body raises the `ValueError` naming
`replace_stride_with_dilation` exactly when that argument is not `None`
and does not have exactly 3 elements (the raised error carries the
offending value); when it is `None` the constructor behaves exactly as
if `[False, False, False]` had been passed. -/
theorem claim_C5 (a : ResNetArgs) (f st : List ℕ) :
    (∀ l, a.replaceStrideWithDilation = some l → l.length ≠ 3 →
      resnetInitFS a f st = .error (.valueErrorRSWD l)) ∧
    (∀ l, resnetInitFS a f st = .error (.valueErrorRSWD l) →
      a.replaceStrideWithDilation = some l ∧ l.length ≠ 3) ∧
    (a.replaceStrideWithDilation = none →
      resnetInitFS a f st =
        resnetInitFS
          { a with replaceStrideWithDilation := some [false, false, false] }
          f st) := by
  refine ⟨?_, ?_, ?_⟩
  · intro l hl hlen
    have hr : rswdNormalize a.replaceStrideWithDilation =
        .error (.valueErrorRSWD l) := by
      rw [hl]; simp [rswdNormalize, hlen]
    unfold resnetInitFS
    rw [hr, bindErrE]
  · intro l h
    unfold resnetInitFS at h
    cases hr : rswdNormalize a.replaceStrideWithDilation with
    | error e =>
        rw [hr, bindErrE] at h
        injection h with h2
        cases hrs : a.replaceStrideWithDilation with
        | none =>
            rw [hrs] at hr
            simp only [rswdNormalize] at hr
            exact absurd hr (by simp)
        | some l2 =>
            rw [hrs] at hr
            simp only [rswdNormalize] at hr
            by_cases hlen : l2.length ≠ 3
            · rw [if_pos hlen] at hr
              injection hr with hr2
              rw [← hr2] at h2
              injection h2 with h3
              rw [← h3]
              exact ⟨rfl, hlen⟩
            · rw [if_neg hlen] at hr
              exact absurd hr (by simp)
    | ok rswd =>
        rw [hr, bindOkE] at h
        have hno : NoRSWD (resnetInitRest a f st rswd >>= fun p =>
            finalLnOf f a.finalLn >>= fun fln => .ok (assembleCfg p fln)) :=
          noRSWD_bind (noRSWD_resnetInitRest _ _ _ _) (fun p =>
            noRSWD_bind (noRSWD_finalLnOf _ _) (fun _ => noRSWD_ok _))
        exact absurd h (hno l)
  · intro h
    unfold resnetInitFS
    rw [h]
    rfl

/-- C10: constructing a `Bottleneck` with a `last_activation` string
other than `"relu"`, `"none"` or `"sigmoid"` succeeds without raising
(whenever the same construction with `"relu"` succeeds), leaves the
`last_activation` attribute unassigned, and every subsequent call of
that block's forward raises `AttributeError` for `last_activation`. -/
theorem claim_C10 (ipl pl st : ℕ) (ds : Option DownSpec) (g bw dil : ℕ)
    (nrm : Option NormKind) (s : String)
    (hok : isOkE (bottleneckInit ipl pl st ds g bw dil nrm "relu") = true)
    (h1 : s ≠ "relu") (h2 : s ≠ "none") (h3 : s ≠ "sigmoid") :
    ∃ c, bottleneckInit ipl pl st ds g bw dil nrm s = .ok c ∧
      c.lastAct = .aUnset ∧
      ∀ (T : Type) (P : TPrims T) (x : T),
        bottleneckForwardE P c x =
          .error (.attributeError "last_activation") := by
  have ha : actOf s = ActAttr.aUnset := by simp [actOf, h1, h2, h3]
  unfold bottleneckInit at hok ⊢
  cases hc : bottleneckInitCore ipl pl st ds g bw dil nrm with
  | error e =>
      rw [hc] at hok
      exact absurd hok (by simp [isOkE, mapErrE])
  | ok c0 =>
      refine ⟨{ c0 with lastAct := actOf s }, rfl, ha, ?_⟩
      intro T P x
      show applyLastAct P (actOf s) _ = _
      rw [ha]
      rfl

theorem resnetNew_setEF (a : ResNetArgs) (e : ℕ) (fl : Bool) (f st : List ℕ)
    (hf : a.filters = some f) (hs : a.strides = some st) :
    resnetNew (setEF a e fl) =
      (do
        let rswd ← rswdNormalize a.replaceStrideWithDilation
        let p ← resnetInitRest a f st rswd
        let fln ← finalLnOf f fl
        Except.ok (assembleCfg p fln)) := by
  obtain ⟨q1, q2, q3, q4, q5, q6, q7, q8, q9, q10, q11, q12, q13, q14, q15,
    q16, q17, q18, q19⟩ := a
  replace hf : q3 = some f := hf
  replace hs : q4 = some st := hs
  subst hf
  subst hs
  rfl

theorem resnetNew_setEF_noFilters (a : ResNetArgs) (e : ℕ) (fl : Bool)
    (hf : a.filters = none) :
    resnetNew (setEF a e fl) = .error .typeErrorMissingArgs := by
  obtain ⟨q1, q2, q3, q4, q5, q6, q7, q8, q9, q10, q11, q12, q13, q14, q15,
    q16, q17, q18, q19⟩ := a
  replace hf : q3 = none := hf
  subst hf
  rfl

theorem resnetNew_setEF_noStrides (a : ResNetArgs) (e : ℕ) (fl : Bool)
    (hs : a.strides = none) :
    resnetNew (setEF a e fl) = .error .typeErrorMissingArgs := by
  obtain ⟨q1, q2, q3, q4, q5, q6, q7, q8, q9, q10, q11, q12, q13, q14, q15,
    q16, q17, q18, q19⟩ := a
  replace hs : q4 = none := hs
  subst hs
  cases q3 with
  | none => rfl
  | some f => rfl

theorem forwardE_ignores_finalLn (p : ResNetPreCfg) (fl1 fl2 : FinalLnAttr)
    {T : Type} (P : TPrims T) (x : T) :
    resnetForwardE P (assembleCfg p fl1) x =
      resnetForwardE P (assembleCfg p fl2) x := rfl

/-- C9: the constructor parameters `expand_factor` and `final_ln` have
no effect on forward behaviour: two `ResNet`s constructed with
identical arguments except for those two parameters, sharing the same
tensor primitives (weights), produce equal forward outputs on every
input. -/
theorem claim_C9 (a : ResNetArgs) (e1 e2 : ℕ) (f1 f2 : Bool) (c1 c2 : ResNetCfg)
    (h1 : resnetNew (setEF a e1 f1) = .ok c1)
    (h2 : resnetNew (setEF a e2 f2) = .ok c2) :
    ∀ (T : Type) (P : TPrims T) (x : T),
      resnetForwardE P c1 x = resnetForwardE P c2 x := by
  intro T P x
  cases hf : a.filters with
  | none =>
      rw [resnetNew_setEF_noFilters a e1 f1 hf] at h1
      exact absurd h1 (by simp)
  | some f =>
      cases hs : a.strides with
      | none =>
          rw [resnetNew_setEF_noStrides a e1 f1 hs] at h1
          exact absurd h1 (by simp)
      | some st =>
          rw [resnetNew_setEF a e1 f1 f st hf hs] at h1
          rw [resnetNew_setEF a e2 f2 f st hf hs] at h2
          cases hr : rswdNormalize a.replaceStrideWithDilation with
          | error e =>
              rw [hr, bindErrE] at h1
              exact absurd h1 (by simp)
          | ok rswd =>
              rw [hr, bindOkE] at h1 h2
              cases hp : resnetInitRest a f st rswd with
              | error e =>
                  rw [hp, bindErrE] at h1
                  exact absurd h1 (by simp)
              | ok p =>
                  rw [hp, bindOkE] at h1 h2
                  cases hl1 : finalLnOf f f1 with
                  | error e =>
                      rw [hl1, bindErrE] at h1
                      exact absurd h1 (by simp)
                  | ok fln1 =>
                      cases hl2 : finalLnOf f f2 with
                      | error e =>
                          rw [hl2, bindErrE] at h2
                          exact absurd h2 (by simp)
                      | ok fln2 =>
                          rw [hl1, bindOkE] at h1
                          rw [hl2, bindOkE] at h2
                          injection h1 with h1e
                          injection h2 with h2e
                          rw [← h1e, ← h2e]
                          exact forwardE_ignores_finalLn p fln1 fln2 P x

/-- C3 (counterexample): `BasicBlockID.forward` performs no residual
addition.  Over the free term interpretation, its output on the input
`var` (with no downsample) is `relu var`, which is not of the claimed
form `relu (t + identity)` for any term `t`: the claim "every residual
block class implements a skip connection" fails for `BasicBlockID`. -/
theorem claim_C3_counterexample :
    ¬ ∃ t : TTerm,
      basicBlockIDForward termPrims ⟨none, 1⟩ TTerm.var =
        termPrims.relu (termPrims.add t
          (identityOf termPrims (none : Option DownSpec) TTerm.var)) := by
  intro ⟨t, h⟩
  simp [basicBlockIDForward, identityOf, termPrims] at h

/-- C3 (amended): `BasicBlock.forward` and `Bottleneck.forward` apply
the final activation to the sum of the residual-branch transformation
and the (possibly downsampled) input; `BasicBlockID.forward` instead
applies the activation directly to the (possibly downsampled) input,
with no transformation and no addition. -/
theorem claim_C3 :
    (∀ (T : Type) (P : TPrims T) (b : BasicSpec) (x : T),
      basicBlockForward P b x =
        P.relu (P.add (basicBlockTransform P b x)
          (identityOf P b.downsample x))) ∧
    (∀ (T : Type) (P : TPrims T) (b : BottleneckSpec) (x : T),
      bottleneckForwardE P b x =
        applyLastAct P b.lastAct (P.add (bottleneckTransform P b x)
          (identityOf P b.downsample x))) ∧
    (∀ (T : Type) (P : TPrims T) (b : BasicIDSpec) (x : T),
      basicBlockIDForward P b x = P.relu (identityOf P b.downsample x)) :=
  ⟨fun _ _ _ _ => rfl, fun _ _ _ _ => rfl, fun _ _ _ _ => rfl⟩

theorem dstep_of_mstep {F : ℕ → StE T ℕ} {fv : T → Except PyErr T}
    (h : MStep F fv) : DStep F fv := by
  intro a s ha
  obtain ⟨h1, h2, h3, h4⟩ := h a s ha
  exact ⟨h1, fun b hb _ => h2 b hb, h3, h4⟩

theorem mstep_of_sstep {F : ℕ → StE T ℕ} {fv : T → Except PyErr T}
    (h : SStep F fv) : MStep F fv := by
  intro a s ha
  obtain ⟨h1, h2, h3, h4⟩ := h a s ha
  exact ⟨h1, h2, fun a' ha' => Or.inr (h3 a' ha'), h4⟩

theorem sstep_fresh (f : T → T) :
    SStep (freshOp f) (fun v => .ok (f v)) := by
  intro a s ha
  refine ⟨by simp [freshOp], ?_, ?_, ?_⟩
  · intro b hb
    show (if b = s.next then f (s.mem a) else s.mem b) = s.mem b
    rw [if_neg (by omega)]
  · intro a' ha'
    injection ha' with h2
    omega
  · show outRel (.ok s.next, _) (.ok (f (s.mem a)))
    simp [outRel, freshOp]

theorem mstep_pure :
    MStep (fun a => (pure a : StE T ℕ)) (fun v => .ok v) := by
  intro a s ha
  refine ⟨le_refl _, fun b _ => rfl, ?_, ?_⟩
  · intro a' ha'
    injection ha' with h2
    exact Or.inl h2.symm
  · exact ⟨ha, rfl⟩

theorem sstep_throw (e : PyErr) :
    SStep (fun _ => (throwOp e : StE T ℕ)) (fun _ => .error e) := by
  intro a s ha
  exact ⟨le_refl _, fun b _ => rfl, fun a' ha' => Except.noConfusion ha', rfl⟩

theorem dstep_inplace (f : T → T) :
    DStep (inplaceOp f) (fun v => .ok (f v)) := by
  intro a s ha
  refine ⟨le_refl _, ?_, ?_, ?_⟩
  · intro b hb hba
    show (if b = a then f (s.mem a) else s.mem b) = s.mem b
    rw [if_neg hba]
  · intro a' ha'
    injection ha' with h2
    exact Or.inl h2.symm
  · refine ⟨ha, ?_⟩
    show (if a = a then f (s.mem a) else s.mem a) = f (s.mem a)
    rw [if_pos rfl]

theorem stbind_ok {T : Type} {α β : Type} {m : StE T α} {f : α → StE T β}
    {s : Store T} {a : α} {s1 : Store T} (hm : m s = (.ok a, s1)) :
    (m >>= f) s = f a s1 := by
  show StE.bind m f s = f a s1
  unfold StE.bind
  rw [hm]

theorem stbind_err {T : Type} {α β : Type} {m : StE T α} {f : α → StE T β}
    {s : Store T} {e : PyErr} {s1 : Store T} (hm : m s = (.error e, s1)) :
    (m >>= f) s = (.error e, s1) := by
  show StE.bind m f s = (.error e, s1)
  unfold StE.bind
  rw [hm]

theorem stpure_eq {T : Type} {α : Type} (a : α) (s : Store T) :
    (pure a : StE T α) s = (.ok a, s) := rfl

theorem dstep_comp {T : Type} {F G : ℕ → StE T ℕ} {fv gv : T → Except PyErr T}
    (hF : DStep F fv) (hG : DStep G gv) :
    DStep (fun a => F a >>= G) (fun v => fv v >>= gv) := by
  intro a s ha
  have hF2 := hF a s ha
  rcases hFa : F a s with ⟨r1, s1⟩
  rw [hFa] at hF2
  obtain ⟨hn1, hfr1, hout1, hrel1⟩ := hF2
  cases r1 with
  | error e =>
      have hstep : (fun a0 => F a0 >>= G) a s = (.error e, s1) := stbind_err hFa
      rw [hstep]
      cases hfv : fv (s.mem a) with
      | ok v =>
          rw [hfv] at hrel1
          exact absurd hrel1 (by simp [outRel])
      | error e2 =>
          rw [hfv] at hrel1
          refine ⟨hn1, fun b hb hba => hfr1 b hb hba,
            fun a2 ha2 => Except.noConfusion ha2, ?_⟩
          show outRel (.error e, s1) (fv (s.mem a) >>= gv)
          rw [hfv, bindErrE]
          exact hrel1
  | ok b =>
      have hstep : (fun a0 => F a0 >>= G) a s = G b s1 := stbind_ok hFa
      rw [hstep]
      cases hfv : fv (s.mem a) with
      | error e2 =>
          rw [hfv] at hrel1
          exact absurd hrel1 (by simp [outRel])
      | ok v =>
          rw [hfv] at hrel1
          obtain ⟨hblt, hbmem⟩ := hrel1
          have hG2 := hG b s1 hblt
          rcases hGb : G b s1 with ⟨r2, s2⟩
          rw [hGb] at hG2
          obtain ⟨hn2, hfr2, hout2, hrel2⟩ := hG2
          rw [hbmem] at hrel2
          have hbor : b = a ∨ s.next ≤ b := hout1 b rfl
          refine ⟨le_trans hn1 hn2, ?_, ?_, ?_⟩
          · intro bb hbb hba
            have hne : bb ≠ b := by
              cases hbor with
              | inl h => rw [h]; exact hba
              | inr h => omega
            rw [hfr2 bb (lt_of_lt_of_le hbb hn1) hne]
            exact hfr1 bb hbb hba
          · intro a2 ha2
            cases hout2 a2 ha2 with
            | inl h =>
                rw [h]
                exact hbor
            | inr h => exact Or.inr (le_trans hn1 h)
          · show outRel (r2, s2) (fv (s.mem a) >>= gv)
            rw [hfv, bindOkE]
            exact hrel2

theorem mstep_sstep_comp {T : Type} {F G : ℕ → StE T ℕ}
    {fv gv : T → Except PyErr T} (hF : MStep F fv) (hG : SStep G gv) :
    SStep (fun a => F a >>= G) (fun v => fv v >>= gv) := by
  intro a s ha
  have hF2 := hF a s ha
  rcases hFa : F a s with ⟨r1, s1⟩
  rw [hFa] at hF2
  obtain ⟨hn1, hfr1, hout1, hrel1⟩ := hF2
  cases r1 with
  | error e =>
      have hstep : (fun a0 => F a0 >>= G) a s = (.error e, s1) := stbind_err hFa
      rw [hstep]
      cases hfv : fv (s.mem a) with
      | ok v =>
          rw [hfv] at hrel1
          exact absurd hrel1 (by simp [outRel])
      | error e2 =>
          rw [hfv] at hrel1
          refine ⟨hn1, fun b hb => hfr1 b hb,
            fun a2 ha2 => Except.noConfusion ha2, ?_⟩
          show outRel (.error e, s1) (fv (s.mem a) >>= gv)
          rw [hfv, bindErrE]
          exact hrel1
  | ok b =>
      have hstep : (fun a0 => F a0 >>= G) a s = G b s1 := stbind_ok hFa
      rw [hstep]
      cases hfv : fv (s.mem a) with
      | error e2 =>
          rw [hfv] at hrel1
          exact absurd hrel1 (by simp [outRel])
      | ok v =>
          rw [hfv] at hrel1
          obtain ⟨hblt, hbmem⟩ := hrel1
          have hG2 := hG b s1 hblt
          rcases hGb : G b s1 with ⟨r2, s2⟩
          rw [hGb] at hG2
          obtain ⟨hn2, hfr2, hout2, hrel2⟩ := hG2
          rw [hbmem] at hrel2
          refine ⟨le_trans hn1 hn2, ?_, ?_, ?_⟩
          · intro bb hbb
            rw [hfr2 bb (lt_of_lt_of_le hbb hn1)]
            exact hfr1 bb hbb
          · intro a2 ha2
            exact le_trans hn1 (hout2 a2 ha2)
          · show outRel (r2, s2) (fv (s.mem a) >>= gv)
            rw [hfv, bindOkE]
            exact hrel2

theorem sstep_dstep_comp {T : Type} {F G : ℕ → StE T ℕ}
    {fv gv : T → Except PyErr T} (hF : SStep F fv) (hG : DStep G gv) :
    SStep (fun a => F a >>= G) (fun v => fv v >>= gv) := by
  intro a s ha
  have hF2 := hF a s ha
  rcases hFa : F a s with ⟨r1, s1⟩
  rw [hFa] at hF2
  obtain ⟨hn1, hfr1, hout1, hrel1⟩ := hF2
  cases r1 with
  | error e =>
      have hstep : (fun a0 => F a0 >>= G) a s = (.error e, s1) := stbind_err hFa
      rw [hstep]
      cases hfv : fv (s.mem a) with
      | ok v =>
          rw [hfv] at hrel1
          exact absurd hrel1 (by simp [outRel])
      | error e2 =>
          rw [hfv] at hrel1
          refine ⟨hn1, fun b hb => hfr1 b hb,
            fun a2 ha2 => Except.noConfusion ha2, ?_⟩
          show outRel (.error e, s1) (fv (s.mem a) >>= gv)
          rw [hfv, bindErrE]
          exact hrel1
  | ok b =>
      have hstep : (fun a0 => F a0 >>= G) a s = G b s1 := stbind_ok hFa
      rw [hstep]
      cases hfv : fv (s.mem a) with
      | error e2 =>
          rw [hfv] at hrel1
          exact absurd hrel1 (by simp [outRel])
      | ok v =>
          rw [hfv] at hrel1
          obtain ⟨hblt, hbmem⟩ := hrel1
          have hbge : s.next ≤ b := hout1 b rfl
          have hG2 := hG b s1 hblt
          rcases hGb : G b s1 with ⟨r2, s2⟩
          rw [hGb] at hG2
          obtain ⟨hn2, hfr2, hout2, hrel2⟩ := hG2
          rw [hbmem] at hrel2
          refine ⟨le_trans hn1 hn2, ?_, ?_, ?_⟩
          · intro bb hbb
            rw [hfr2 bb (lt_of_lt_of_le hbb hn1) (by omega)]
            exact hfr1 bb hbb
          · intro a2 ha2
            cases hout2 a2 ha2 with
            | inl h => omega
            | inr h => exact le_trans hn1 h
          · show outRel (r2, s2) (fv (s.mem a) >>= gv)
            rw [hfv, bindOkE]
            exact hrel2

theorem mstep_identityOpS {T : Type} (P : TPrims T) (ds : Option DownSpec) :
    MStep (identityOpS P ds) (fun v => .ok (identityOf P ds v)) := by
  cases ds with
  | none =>
      intro a s ha
      exact mstep_pure a s ha
  | some d =>
      intro a s ha
      exact mstep_of_sstep
        (sstep_dstep_comp (sstep_fresh (P.conv2d d.conv))
          (dstep_of_mstep (mstep_of_sstep (sstep_fresh (P.norm d.norm)))))
        a s ha

theorem sstep_pattern {T : Type} (P : TPrims T) {t d act : ℕ → StE T ℕ}
    {tv dv actv : T → Except PyErr T}
    (ht : SStep t tv) (hd : MStep d dv) (hact : DStep act actv) :
    SStep (fun x => t x >>= fun o => d x >>= fun i =>
        addInplaceOp P o i >>= act)
      (fun v => tv v >>= fun ov => dv v >>= fun iv => actv (P.add ov iv)) := by
  intro x s hx
  have ht2 := ht x s hx
  rcases hta : t x s with ⟨r1, s1⟩
  rw [hta] at ht2
  obtain ⟨hn1, hfr1, hout1, hrel1⟩ := ht2
  cases r1 with
  | error e =>
      have hc : (fun x0 => t x0 >>= fun o => d x0 >>= fun i =>
          addInplaceOp P o i >>= act) x s = (.error e, s1) := stbind_err hta
      rw [hc]
      cases hfv : tv (s.mem x) with
      | ok v => rw [hfv] at hrel1; exact absurd hrel1 (by simp [outRel])
      | error e2 =>
          rw [hfv] at hrel1
          refine ⟨hn1, fun b hb => hfr1 b hb,
            fun a2 ha2 => Except.noConfusion ha2, ?_⟩
          show outRel (.error e, s1) (tv (s.mem x) >>= _)
          rw [hfv, bindErrE]
          exact hrel1
  | ok o =>
      cases hfv : tv (s.mem x) with
      | error e2 => rw [hfv] at hrel1; exact absurd hrel1 (by simp [outRel])
      | ok ov =>
          rw [hfv] at hrel1
          obtain ⟨holt, homem⟩ := hrel1
          have hoge : s.next ≤ o := hout1 o rfl
          have hxlt1 : x < s1.next := lt_of_lt_of_le hx hn1
          have hd2 := hd x s1 hxlt1
          rcases hda : d x s1 with ⟨r2, s2⟩
          rw [hda] at hd2
          obtain ⟨hn2, hfr2, hout2, hrel2⟩ := hd2
          have hs1x : s1.mem x = s.mem x := hfr1 x hx
          rw [hs1x] at hrel2
          cases r2 with
          | error e =>
              have hc : (fun x0 => t x0 >>= fun o => d x0 >>= fun i =>
                  addInplaceOp P o i >>= act) x s = (.error e, s2) := by
                rw [show (fun x0 => t x0 >>= fun o => d x0 >>= fun i =>
                  addInplaceOp P o i >>= act) x s = (d x >>= fun i =>
                    addInplaceOp P o i >>= act) s1 from stbind_ok hta]
                exact stbind_err hda
              rw [hc]
              cases hdv : dv (s.mem x) with
              | ok v => rw [hdv] at hrel2; exact absurd hrel2 (by simp [outRel])
              | error e3 =>
                  rw [hdv] at hrel2
                  refine ⟨le_trans hn1 hn2, ?_,
                    fun a2 ha2 => Except.noConfusion ha2, ?_⟩
                  · intro b hb
                    rw [hfr2 b (lt_of_lt_of_le hb hn1)]
                    exact hfr1 b hb
                  · show outRel (.error e, s2) (tv (s.mem x) >>= _)
                    rw [hfv, bindOkE, hdv, bindErrE]
                    exact hrel2
          | ok i =>
              cases hdv : dv (s.mem x) with
              | error e3 =>
                  rw [hdv] at hrel2
                  exact absurd hrel2 (by simp [outRel])
              | ok iv =>
                  rw [hdv] at hrel2
                  obtain ⟨hilt, himem⟩ := hrel2
                  have hior : i = x ∨ s1.next ≤ i := hout2 i rfl
                  have hs2o : s2.mem o = ov := by
                    rw [hfr2 o holt]
                    exact homem
                  have hadd : addInplaceOp P o i s2 =
                      (.ok o, s2.write o (P.add ov iv)) := by
                    unfold addInplaceOp
                    rw [hs2o, himem]
                  have hc : (fun x0 => t x0 >>= fun o => d x0 >>= fun i =>
                      addInplaceOp P o i >>= act) x s =
                      act o (s2.write o (P.add ov iv)) := by
                    rw [show (fun x0 => t x0 >>= fun o => d x0 >>= fun i =>
                      addInplaceOp P o i >>= act) x s = (d x >>= fun i =>
                        addInplaceOp P o i >>= act) s1 from stbind_ok hta]
                    rw [show (d x >>= fun i => addInplaceOp P o i >>= act) s1 =
                      (addInplaceOp P o i >>= act) s2 from stbind_ok hda]
                    exact stbind_ok hadd
                  rw [hc]
                  have holt2 : o < (s2.write o (P.add ov iv)).next :=
                    lt_of_lt_of_le holt hn2
                  have hact2 := hact o (s2.write o (P.add ov iv)) holt2
                  rcases hacta : act o (s2.write o (P.add ov iv)) with ⟨r4, s4⟩
                  rw [hacta] at hact2
                  obtain ⟨hn4, hfr4, hout4, hrel4⟩ := hact2
                  have hwmem : (s2.write o (P.add ov iv)).mem o =
                      P.add ov iv := by
                    show (if o = o then _ else _) = _
                    rw [if_pos rfl]
                  rw [hwmem] at hrel4
                  refine ⟨le_trans hn1 (le_trans hn2 hn4), ?_, ?_, ?_⟩
                  · intro b hb
                    have hbo : b ≠ o := by omega
                    rw [hfr4 b (by
                      show b < s2.next
                      exact lt_of_lt_of_le hb (le_trans hn1 hn2)) hbo]
                    show (if b = o then _ else s2.mem b) = s.mem b
                    rw [if_neg hbo, hfr2 b (lt_of_lt_of_le hb hn1)]
                    exact hfr1 b hb
                  · intro a2 ha2
                    cases hout4 a2 ha2 with
                    | inl h => omega
                    | inr h =>
                        show s.next ≤ a2
                        have : (s2.write o (P.add ov iv)).next = s2.next := rfl
                        omega
                  · show outRel (r4, s4) (tv (s.mem x) >>= _)
                    rw [hfv, bindOkE, hdv, bindOkE]
                    exact hrel4

theorem sstep_basicTransform {T : Type} (P : TPrims T) (b : BasicSpec) :
    SStep (basicTransformS P b)
      (fun v => .ok (basicBlockTransform P b v)) := by
  intro a s ha
  exact sstep_dstep_comp (sstep_fresh (P.conv2d b.conv1))
    (dstep_comp (dstep_of_mstep (mstep_of_sstep (sstep_fresh (P.norm b.bn1))))
      (dstep_comp (dstep_inplace P.relu)
        (dstep_comp (dstep_of_mstep (mstep_of_sstep
            (sstep_fresh (P.conv2d b.conv2))))
          (dstep_of_mstep (mstep_of_sstep (sstep_fresh (P.norm b.bn2)))))))
    a s ha

theorem dstep_basicBlockS {T : Type} (P : TPrims T) (b : BasicSpec) :
    DStep (basicBlockS P b) (fun v => .ok (basicBlockForward P b v)) := by
  intro a s ha
  exact dstep_of_mstep (mstep_of_sstep (sstep_pattern P
    (sstep_basicTransform P b) (mstep_identityOpS P b.downsample)
    (dstep_inplace P.relu))) a s ha

theorem dstep_basicBlockIDS {T : Type} (P : TPrims T) (b : BasicIDSpec) :
    DStep (basicBlockIDS P b) (fun v => .ok (basicBlockIDForward P b v)) := by
  intro a s ha
  exact dstep_comp (dstep_of_mstep (mstep_identityOpS P b.downsample))
    (dstep_inplace P.relu) a s ha

theorem dstep_lastActS {T : Type} (P : TPrims T) (act : ActAttr) :
    DStep (lastActS P act) (applyLastAct P act) := by
  cases act with
  | aRelu => exact dstep_inplace P.relu
  | aIdentity => exact dstep_of_mstep mstep_pure
  | aSigmoid => exact dstep_of_mstep (mstep_of_sstep (sstep_fresh P.sigmoid))
  | aUnset =>
      exact dstep_of_mstep (mstep_of_sstep
        (sstep_throw (.attributeError "last_activation")))

theorem sstep_bottleneckTransform {T : Type} (P : TPrims T)
    (b : BottleneckSpec) :
    SStep (bottleneckTransformS P b)
      (fun v => .ok (bottleneckTransform P b v)) := by
  intro a s ha
  exact sstep_dstep_comp (sstep_fresh (P.conv2d b.conv1))
    (dstep_comp (dstep_of_mstep (mstep_of_sstep (sstep_fresh (P.norm b.bn1))))
      (dstep_comp (dstep_inplace P.relu)
        (dstep_comp (dstep_of_mstep (mstep_of_sstep
            (sstep_fresh (P.conv2d b.conv2))))
          (dstep_comp (dstep_of_mstep (mstep_of_sstep
              (sstep_fresh (P.norm b.bn2))))
            (dstep_comp (dstep_inplace P.relu)
              (dstep_comp (dstep_of_mstep (mstep_of_sstep
                  (sstep_fresh (P.conv2d b.conv3))))
                (dstep_of_mstep (mstep_of_sstep
                  (sstep_fresh (P.norm b.bn3))))))))))
    a s ha

theorem dstep_bottleneckS {T : Type} (P : TPrims T) (b : BottleneckSpec) :
    DStep (bottleneckS P b) (bottleneckForwardE P b) := by
  intro a s ha
  exact dstep_of_mstep (mstep_of_sstep (sstep_pattern P
    (sstep_bottleneckTransform P b) (mstep_identityOpS P b.downsample)
    (dstep_lastActS P b.lastAct))) a s ha

theorem dstep_blockS {T : Type} (P : TPrims T) (b : BlockSpec) :
    DStep (blockS P b) (blockForwardE P b) := by
  cases b with
  | basic bs => exact dstep_basicBlockS P bs
  | basicID bs => exact dstep_basicBlockIDS P bs
  | bottleneck bs => exact dstep_bottleneckS P bs

theorem dstep_layerS {T : Type} (P : TPrims T) (l : List BlockSpec) :
    DStep (layerS P l) (layerForwardE P l) := by
  induction l with
  | nil =>
      intro a s ha
      exact dstep_of_mstep mstep_pure a s ha
  | cons b bs ih =>
      intro a s ha
      exact dstep_comp (dstep_blockS P b) ih a s ha

theorem mstep_padStep {T : Type} (P : TPrims T) (b : Bool) :
    MStep (padStepS P b) (fun v => .ok (if b then P.pad v else v)) := by
  cases b
  · exact mstep_pure
  · exact mstep_of_sstep (sstep_fresh P.pad)

theorem dstep_maxpoolStep {T : Type} (P : TPrims T) (b : Bool) :
    DStep (maxpoolStepS P b) (fun v => .ok (if b then P.maxpool v else v)) := by
  cases b
  · exact dstep_of_mstep mstep_pure
  · exact dstep_of_mstep (mstep_of_sstep (sstep_fresh P.maxpool))

theorem dstep_tailFlatten {T : Type} (b : Bool) (f : T → T) :
    DStep (fun a => if b then pure a else freshOp f a)
      (fun v => .ok (if b then v else f v)) := by
  cases b
  · exact dstep_of_mstep (mstep_of_sstep (sstep_fresh f))
  · exact dstep_of_mstep mstep_pure

theorem dstep_optLayer {T : Type} (P : TPrims T)
    (ol : Option (List BlockSpec)) :
    DStep (optLayerS P ol) (optLayerE P ol) := by
  cases ol with
  | none => exact dstep_of_mstep mstep_pure
  | some l => exact dstep_layerS P l

theorem dstep_finalPool {T : Type} (P : TPrims T) (fp : FinalPoolAttr) :
    DStep (finalPoolS P fp) (finalPoolE P fp) := by
  cases fp with
  | avg => exact dstep_of_mstep (mstep_of_sstep (sstep_fresh _))
  | oneByOne cs => exact dstep_of_mstep (mstep_of_sstep (sstep_fresh _))
  | nonePool => exact dstep_of_mstep mstep_pure
  | unset => exact dstep_of_mstep (mstep_of_sstep (sstep_throw _))

theorem sstep_pre {T : Type} (P : TPrims T) (c : ResNetCfg) :
    SStep (resnetForwardPreS P c) (resnetForwardPreE P c) := by
  intro a s ha
  exact mstep_sstep_comp (mstep_padStep P c.padding)
    (sstep_dstep_comp (sstep_fresh (P.conv2d c.conv1))
      (dstep_comp (dstep_of_mstep (mstep_of_sstep (sstep_fresh (P.norm c.bn1))))
        (dstep_comp (dstep_inplace P.relu)
          (dstep_comp (dstep_maxpoolStep P c.maxpool)
            (dstep_comp (dstep_layerS P c.layer1)
              (dstep_comp (dstep_optLayer P c.layer2)
                (dstep_comp (dstep_optLayer P c.layer3)
                  (dstep_comp (dstep_optLayer P c.layer4)
                    (dstep_finalPool P c.finalPool))))))))) a s ha

theorem sstep_forward {T : Type} (P : TPrims T) (c : ResNetCfg) :
    SStep (resnetForwardS P c) (resnetForwardE P c) := by
  intro a s ha
  exact sstep_dstep_comp (sstep_pre P c)
    (dstep_tailFlatten c.spatialOutput P.flatten1) a s ha

theorem sstep_result {T : Type} {F : ℕ → StE T ℕ} {fv : T → Except PyErr T}
    (h : SStep F fv) {a : ℕ} {s : Store T} (ha : a < s.next) :
    StE.result (F a) s = fv (s.mem a) := by
  have h4 := (h a s ha).2.2.2
  unfold StE.result
  rcases hFa : F a s with ⟨r, s1⟩
  rw [hFa] at h4
  cases r with
  | ok a2 =>
      cases hfv : fv (s.mem a) with
      | ok v =>
          rw [hfv] at h4
          obtain ⟨_, hm⟩ := h4
          show Except.map _ (.ok a2) = _
          simp [Except.map]
          exact hm
      | error e => rw [hfv] at h4; exact absurd h4 (by simp [outRel])
  | error e =>
      cases hfv : fv (s.mem a) with
      | ok v => rw [hfv] at h4; exact absurd h4 (by simp [outRel])
      | error e2 =>
          rw [hfv] at h4
          show Except.map _ (.error e) = _
          simp [Except.map]
          exact h4

/-- C7: `ResNet.forward` mutates no pre-existing tensor.  In the store
semantics, running forward on an input address leaves every cell
allocated before the call — the caller's input tensor and all cells
holding the network's weight tensors included — unchanged: the in-place
operations (`nn.ReLU(inplace=True)`, `out += identity`) only ever write
to cells the call itself allocated. -/
theorem claim_C7 {T : Type} (P : TPrims T) (c : ResNetCfg) (a : ℕ) (s : Store T)
    (ha : a < s.next) :
    ∀ b, b < s.next → ((resnetForwardS P c a s).2).mem b = s.mem b :=
  fun b hb => ((sstep_forward P c) a s ha).2.1 b hb

/-- C6: `ResNet.forward` is deterministic.  Running the store-semantics
forward twice in sequence on the same constructed network (same
primitives, i.e. same weights) and the same input tensor yields equal
output encodings: the second run, started in the store the first run
left behind, returns the same tensor value. -/
theorem claim_C6 {T : Type} (P : TPrims T) (c : ResNetCfg) (a : ℕ) (s : Store T)
    (ha : a < s.next) :
    StE.result (resnetForwardS P c a) ((resnetForwardS P c a s).2) =
      StE.result (resnetForwardS P c a) s := by
  have hs := sstep_forward P c
  have h1 := sstep_result hs ha
  have hnext := (hs a s ha).1
  have ha2 : a < ((resnetForwardS P c a s).2).next := lt_of_lt_of_le ha hnext
  have h2 := sstep_result hs ha2
  rw [h1, h2, (hs a s ha).2.1 a ha]

/-- C1: for every network constructed as `resnet18` constructs it
(block `BasicBlock`, layers `[2,2,2,2]`, filters `[64,128,256,512]`,
strides `[1,2,2,2]`, default `final_pool_type = "avg_pool"` and
`spatial_output = False`) with any configured `num_channels`, and every
input of shape `(B, num_channels, H, W)` with `H, W ≥ 1`, the
constructor returns the advertised channel count 512 as the companion
value and the forward pass produces encodings of shape `(B, 512)`. -/
theorem claim_C1 (B nc H W : ℕ) (hH : 1 ≤ H) (hW : 1 ≤ W) :
    resnet18Fn { defaultKw with numChannels := nc } =
      .ok (resnet18Cfg nc, some 512) ∧
    resnetForwardE shapePrims (resnet18Cfg nc) (some [B, nc, H, W]) =
      .ok (some [B, 512]) :=
  ⟨resnet18_constructs nc, c1shape B nc H W hH hW⟩

/-- Witness for C1 at batch 2, `num_channels = 3`, a 5x5 input. -/
theorem claim_C1_witness :
    resnet18Fn { defaultKw with numChannels := 3 } =
      .ok (resnet18Cfg 3, some 512) ∧
    resnetForwardE shapePrims (resnet18Cfg 3) (some [2, 3, 5, 5]) =
      .ok (some [2, 512]) :=
  claim_C1 2 3 5 5 (by decide) (by decide)

/-- C2 (counterexample): `resnet34()` with default hyperparameters does
not return normally: it calls `ResNet(BasicBlock, [3, 4, 6, 3])`
without the required positional arguments `filters` and `strides` and
raises `TypeError`. -/
theorem claim_C2_counterexample :
    resnet34Fn defaultKw = .error .typeErrorMissingArgs := by decide

/-- C4 (counterexample): `BasicBlock(64, 130, norm_layer=nn.GroupNorm)`
with `groups = 1`, `base_width = 64` and `dilation = 1` raises a
`ValueError` (from `nn.GroupNorm(32, 130)`: 130 is not divisible by
32), contradicting the claim that a `ValueError` occurs only when
`groups ≠ 1` or `base_width ≠ 64` and that such calls do not raise;
it is raised after `conv1` was assigned, so state is partially built. -/
theorem claim_C4_counterexample :
    basicBlockInit 64 130 1 none 1 64 1 (some .groupNorm) "relu" =
      .error .valueErrorGroupNorm ∧
    PyErr.valueErrorGroupNorm.isValueError = true := by
  exact ⟨by decide, by decide⟩

/-- Witness for C4: `BasicBlock(64, 64)` with supported arguments
constructs without raising. -/
theorem claim_C4_witness :
    ∃ c, basicBlockInit 64 64 1 none 1 64 1 none "relu" = .ok c :=
  (claim_C4 64 64 1 none 1 64 1 "relu").2.2 rfl rfl (by decide)

/-- Witness for C5: a 1-element `replace_stride_with_dilation` raises
the `ValueError` carrying it. -/
theorem claim_C5_witness :
    resnetInitFS { defaultKw with replaceStrideWithDilation := some [true] }
      [64] [1] = .error (.valueErrorRSWD [true]) :=
  (claim_C5 { defaultKw with replaceStrideWithDilation := some [true] }
    [64] [1]).1 [true] rfl (by decide)

/-- Witness for C6: two sequential runs of the `resnet18` network over
the integer interpretation on a store holding one tensor return equal
outputs. -/
theorem claim_C6_witness :
    StE.result (resnetForwardS intPrims (resnet18Cfg 3) 0)
        ((resnetForwardS intPrims (resnet18Cfg 3) 0
          (⟨fun _ => 0, 1⟩ : Store Int)).2) =
      StE.result (resnetForwardS intPrims (resnet18Cfg 3) 0)
        (⟨fun _ => 0, 1⟩ : Store Int) :=
  claim_C6 intPrims (resnet18Cfg 3) 0 (⟨fun _ => 0, 1⟩ : Store Int)
    (by decide)

/-- Witness for C7: running the `resnet18` network over the integer
interpretation leaves the caller's input cell unchanged. -/
theorem claim_C7_witness :
    ((resnetForwardS intPrims (resnet18Cfg 3) 0
        (⟨fun _ => 0, 1⟩ : Store Int)).2).mem 0 =
      (⟨fun _ => 0, 1⟩ : Store Int).mem 0 :=
  claim_C7 intPrims (resnet18Cfg 3) 0 (⟨fun _ => 0, 1⟩ : Store Int)
    (by decide) 0 (by decide)

/-- Witness for C8 at the `resnet18` configuration (`spatial_output =
False`) on a `(2, 3, 1, 1)` input: the encodings are flattened to
`(2, 512)`. -/
theorem claim_C8_witness :
    resnetForwardE shapePrims (resnet18Cfg 3) (some [2, 3, 1, 1]) =
      .ok (some [2, 512 * 1 * 1]) :=
  (claim_C8 (resnet18Cfg 3) (some [2, 3, 1, 1]) 2 512 1 1 rfl).2 rfl

/-- Witness for C9: the `resnet18` arguments with `expand_factor`
2 vs 7 and `final_ln` `False` vs `True` construct networks with equal
forward outputs over the integer interpretation. -/
theorem claim_C9_witness :
    resnetForwardE intPrims (resnet18Cfg 3) 0 =
      resnetForwardE intPrims
        { resnet18Cfg 3 with finalLn := .layerNorm 512 } 0 :=
  claim_C9
    { defaultKw with
        block := .basic
        layers := [2, 2, 2, 2]
        filters := some [64, 128, 256, 512]
        strides := some [1, 2, 2, 2] }
    2 7 false true (resnet18Cfg 3)
    { resnet18Cfg 3 with finalLn := .layerNorm 512 }
    (by decide) (by decide) Int intPrims 0

/-- Witness for C10 at `Bottleneck(64, 64, last_activation="tanh")`. -/
theorem claim_C10_witness :
    ∃ c, bottleneckInit 64 64 1 none 1 64 1 none "tanh" = .ok c ∧
      c.lastAct = .aUnset ∧
      ∀ (T : Type) (P : TPrims T) (x : T),
        bottleneckForwardE P c x =
          .error (.attributeError "last_activation") :=
  claim_C10 64 64 1 none 1 64 1 none "tanh" (by decide) (by decide)
    (by decide) (by decide)
